import Mathlib

/-! # Error-message lookups of `lib/strerror.c`

A shallow embedding of the translation unit `lib/strerror.c`: the four public
code-to-text lookups (`curl_easy_strerror`, `curl_multi_strerror`,
`curl_share_strerror`, `curl_url_strerror`), the Winsock helper
`get_winsock_error`, and the two buffer-filling translators `Curl_strerror` and
`Curl_sspi_strerror`.

Conventions.
* A value of a C enumeration or an `int` is an `Int`.  The numeric values of the
  enumerators come from headers outside this unit, so every lookup takes the
  numbering of its enumerators as a parameter (`num`).
* A C string is the list of its characters before the terminating NUL (`CStr`);
  a string literal is a Lean `String`.
* Preprocessor conditionals are the fields of `Build`.
* `errno` and the Windows last-error value are the fields of `Ambient`, passed
  explicitly through every call that can touch them.
* The helpers defined outside this unit are the fields of `Platform`.  Where a
  statement needs the text the formatter `curl_msnprintf` produces, the
  formatter is assumed to be the bounded printf-style formatter of the spec
  (`formats_as_printf`).
-/

namespace Strerror

/-! ## Build configuration -/

/-- Which `strerror_r` the platform has: `HAVE_STRERROR_R` with
`HAVE_POSIX_STRERROR_R`, `HAVE_STRERROR_R` with `HAVE_GLIBC_STRERROR_R`, or no
`strerror_r` at all (plain `strerror`). -/
inductive StrerrorKind where
  | posix_r
  | glibc_r
  | plain
  deriving DecidableEq, Repr

/-- Preprocessor symbols that select code in `strerror.c`.
`verbose` is the absence of `CURL_DISABLE_VERBOSE_STRINGS`, `win32` is `_WIN32`,
`under_ce` is `UNDER_CE`, `winsock` is `USE_WINSOCK`, `wsaediscon` is the
system header defining `WSAEDISCON`, `strerror_kind` the `strerror_r` flavour. -/
structure Build where
  verbose : Bool
  win32 : Bool
  under_ce : Bool
  winsock : Bool
  wsaediscon : Bool
  strerror_kind : StrerrorKind
  deriving DecidableEq, Repr

/-! ## Enumerations named by the switches -/

/-- Enumerators of `CURLcode` that `curl_easy_strerror` names in a `case` label. -/
inductive CURLcode where
  | CURLE_OK
  | CURLE_UNSUPPORTED_PROTOCOL
  | CURLE_FAILED_INIT
  | CURLE_URL_MALFORMAT
  | CURLE_NOT_BUILT_IN
  | CURLE_COULDNT_RESOLVE_PROXY
  | CURLE_COULDNT_RESOLVE_HOST
  | CURLE_COULDNT_CONNECT
  | CURLE_WEIRD_SERVER_REPLY
  | CURLE_REMOTE_ACCESS_DENIED
  | CURLE_FTP_ACCEPT_FAILED
  | CURLE_FTP_ACCEPT_TIMEOUT
  | CURLE_FTP_PRET_FAILED
  | CURLE_FTP_WEIRD_PASS_REPLY
  | CURLE_FTP_WEIRD_PASV_REPLY
  | CURLE_FTP_WEIRD_227_FORMAT
  | CURLE_FTP_CANT_GET_HOST
  | CURLE_HTTP2
  | CURLE_FTP_COULDNT_SET_TYPE
  | CURLE_PARTIAL_FILE
  | CURLE_FTP_COULDNT_RETR_FILE
  | CURLE_QUOTE_ERROR
  | CURLE_HTTP_RETURNED_ERROR
  | CURLE_WRITE_ERROR
  | CURLE_UPLOAD_FAILED
  | CURLE_READ_ERROR
  | CURLE_OUT_OF_MEMORY
  | CURLE_OPERATION_TIMEDOUT
  | CURLE_FTP_PORT_FAILED
  | CURLE_FTP_COULDNT_USE_REST
  | CURLE_RANGE_ERROR
  | CURLE_SSL_CONNECT_ERROR
  | CURLE_BAD_DOWNLOAD_RESUME
  | CURLE_FILE_COULDNT_READ_FILE
  | CURLE_LDAP_CANNOT_BIND
  | CURLE_LDAP_SEARCH_FAILED
  | CURLE_ABORTED_BY_CALLBACK
  | CURLE_BAD_FUNCTION_ARGUMENT
  | CURLE_INTERFACE_FAILED
  | CURLE_TOO_MANY_REDIRECTS
  | CURLE_UNKNOWN_OPTION
  | CURLE_SETOPT_OPTION_SYNTAX
  | CURLE_GOT_NOTHING
  | CURLE_SSL_ENGINE_NOTFOUND
  | CURLE_SSL_ENGINE_SETFAILED
  | CURLE_SSL_ENGINE_INITFAILED
  | CURLE_SEND_ERROR
  | CURLE_RECV_ERROR
  | CURLE_SSL_CERTPROBLEM
  | CURLE_SSL_CIPHER
  | CURLE_PEER_FAILED_VERIFICATION
  | CURLE_SSL_CACERT_BADFILE
  | CURLE_BAD_CONTENT_ENCODING
  | CURLE_FILESIZE_EXCEEDED
  | CURLE_USE_SSL_FAILED
  | CURLE_SSL_SHUTDOWN_FAILED
  | CURLE_SSL_CRL_BADFILE
  | CURLE_SSL_ISSUER_ERROR
  | CURLE_SEND_FAIL_REWIND
  | CURLE_LOGIN_DENIED
  | CURLE_TFTP_NOTFOUND
  | CURLE_TFTP_PERM
  | CURLE_REMOTE_DISK_FULL
  | CURLE_TFTP_ILLEGAL
  | CURLE_TFTP_UNKNOWNID
  | CURLE_REMOTE_FILE_EXISTS
  | CURLE_TFTP_NOSUCHUSER
  | CURLE_REMOTE_FILE_NOT_FOUND
  | CURLE_SSH
  | CURLE_AGAIN
  | CURLE_RTSP_CSEQ_ERROR
  | CURLE_RTSP_SESSION_ERROR
  | CURLE_FTP_BAD_FILE_LIST
  | CURLE_CHUNK_FAILED
  | CURLE_NO_CONNECTION_AVAILABLE
  | CURLE_SSL_PINNEDPUBKEYNOTMATCH
  | CURLE_SSL_INVALIDCERTSTATUS
  | CURLE_HTTP2_STREAM
  | CURLE_RECURSIVE_API_CALL
  | CURLE_AUTH_ERROR
  | CURLE_HTTP3
  | CURLE_QUIC_CONNECT_ERROR
  | CURLE_PROXY
  | CURLE_SSL_CLIENTCERT
  | CURLE_UNRECOVERABLE_POLL
  | CURLE_TOO_LARGE
  | CURLE_ECH_REQUIRED
  deriving DecidableEq, Repr

/-- Enumerators of `CURLMcode` that `curl_multi_strerror` names in a `case` label. -/
inductive CURLMcode where
  | CURLM_CALL_MULTI_PERFORM
  | CURLM_OK
  | CURLM_BAD_HANDLE
  | CURLM_BAD_EASY_HANDLE
  | CURLM_OUT_OF_MEMORY
  | CURLM_INTERNAL_ERROR
  | CURLM_BAD_SOCKET
  | CURLM_UNKNOWN_OPTION
  | CURLM_ADDED_ALREADY
  | CURLM_RECURSIVE_API_CALL
  | CURLM_WAKEUP_FAILURE
  | CURLM_BAD_FUNCTION_ARGUMENT
  | CURLM_ABORTED_BY_CALLBACK
  | CURLM_UNRECOVERABLE_POLL
  | CURLM_LAST
  deriving DecidableEq, Repr

/-- Enumerators of `CURLSHcode` that `curl_share_strerror` names in a `case` label. -/
inductive CURLSHcode where
  | CURLSHE_OK
  | CURLSHE_BAD_OPTION
  | CURLSHE_IN_USE
  | CURLSHE_INVALID
  | CURLSHE_NOMEM
  | CURLSHE_NOT_BUILT_IN
  | CURLSHE_LAST
  deriving DecidableEq, Repr

/-- Enumerators of `CURLUcode` that `curl_url_strerror` names in a `case` label. -/
inductive CURLUcode where
  | CURLUE_OK
  | CURLUE_BAD_HANDLE
  | CURLUE_BAD_PARTPOINTER
  | CURLUE_MALFORMED_INPUT
  | CURLUE_BAD_PORT_NUMBER
  | CURLUE_UNSUPPORTED_SCHEME
  | CURLUE_URLDECODE
  | CURLUE_OUT_OF_MEMORY
  | CURLUE_USER_NOT_ALLOWED
  | CURLUE_UNKNOWN_PART
  | CURLUE_NO_SCHEME
  | CURLUE_NO_USER
  | CURLUE_NO_PASSWORD
  | CURLUE_NO_OPTIONS
  | CURLUE_NO_HOST
  | CURLUE_NO_PORT
  | CURLUE_NO_QUERY
  | CURLUE_NO_FRAGMENT
  | CURLUE_NO_ZONEID
  | CURLUE_BAD_LOGIN
  | CURLUE_BAD_IPV6
  | CURLUE_BAD_HOSTNAME
  | CURLUE_BAD_FILE_URL
  | CURLUE_BAD_SLASHES
  | CURLUE_BAD_SCHEME
  | CURLUE_BAD_PATH
  | CURLUE_BAD_FRAGMENT
  | CURLUE_BAD_QUERY
  | CURLUE_BAD_PASSWORD
  | CURLUE_BAD_USER
  | CURLUE_LACKS_IDN
  | CURLUE_TOO_LARGE
  | CURLUE_LAST
  deriving DecidableEq, Repr

/-- Winsock error constants that `get_winsock_error` names in a `case` label. -/
inductive WSAcode where
  | WSAEINTR
  | WSAEBADF
  | WSAEACCES
  | WSAEFAULT
  | WSAEINVAL
  | WSAEMFILE
  | WSAEWOULDBLOCK
  | WSAEINPROGRESS
  | WSAEALREADY
  | WSAENOTSOCK
  | WSAEDESTADDRREQ
  | WSAEMSGSIZE
  | WSAEPROTOTYPE
  | WSAENOPROTOOPT
  | WSAEPROTONOSUPPORT
  | WSAESOCKTNOSUPPORT
  | WSAEOPNOTSUPP
  | WSAEAFNOSUPPORT
  | WSAEPFNOSUPPORT
  | WSAEADDRINUSE
  | WSAEADDRNOTAVAIL
  | WSAENETDOWN
  | WSAENETUNREACH
  | WSAENETRESET
  | WSAECONNABORTED
  | WSAECONNRESET
  | WSAENOBUFS
  | WSAEISCONN
  | WSAENOTCONN
  | WSAESHUTDOWN
  | WSAETOOMANYREFS
  | WSAETIMEDOUT
  | WSAECONNREFUSED
  | WSAELOOP
  | WSAENAMETOOLONG
  | WSAEHOSTDOWN
  | WSAEHOSTUNREACH
  | WSAENOTEMPTY
  | WSAEPROCLIM
  | WSAEUSERS
  | WSAEDQUOT
  | WSAESTALE
  | WSAEREMOTE
  | WSAEDISCON
  | WSASYSNOTREADY
  | WSANOTINITIALISED
  | WSAVERNOTSUPPORTED
  | WSAHOST_NOT_FOUND
  | WSATRY_AGAIN
  | WSANO_RECOVERY
  | WSANO_DATA
  deriving DecidableEq, Repr

/-- Security-provider status constants that `Curl_sspi_strerror` names in a `case` label. -/
inductive SECcode where
  | SEC_E_OK
  | CRYPT_E_REVOKED
  | CRYPT_E_NO_REVOCATION_DLL
  | CRYPT_E_NO_REVOCATION_CHECK
  | CRYPT_E_REVOCATION_OFFLINE
  | CRYPT_E_NOT_IN_REVOCATION_DATABASE
  | SEC_E_ALGORITHM_MISMATCH
  | SEC_E_BAD_BINDINGS
  | SEC_E_BAD_PKGID
  | SEC_E_BUFFER_TOO_SMALL
  | SEC_E_CANNOT_INSTALL
  | SEC_E_CANNOT_PACK
  | SEC_E_CERT_EXPIRED
  | SEC_E_CERT_UNKNOWN
  | SEC_E_CERT_WRONG_USAGE
  | SEC_E_CONTEXT_EXPIRED
  | SEC_E_CROSSREALM_DELEGATION_FAILURE
  | SEC_E_CRYPTO_SYSTEM_INVALID
  | SEC_E_DECRYPT_FAILURE
  | SEC_E_DELEGATION_POLICY
  | SEC_E_DELEGATION_REQUIRED
  | SEC_E_DOWNGRADE_DETECTED
  | SEC_E_ENCRYPT_FAILURE
  | SEC_E_ILLEGAL_MESSAGE
  | SEC_E_INCOMPLETE_CREDENTIALS
  | SEC_E_INCOMPLETE_MESSAGE
  | SEC_E_INSUFFICIENT_MEMORY
  | SEC_E_INTERNAL_ERROR
  | SEC_E_INVALID_HANDLE
  | SEC_E_INVALID_PARAMETER
  | SEC_E_INVALID_TOKEN
  | SEC_E_ISSUING_CA_UNTRUSTED
  | SEC_E_ISSUING_CA_UNTRUSTED_KDC
  | SEC_E_KDC_CERT_EXPIRED
  | SEC_E_KDC_CERT_REVOKED
  | SEC_E_KDC_INVALID_REQUEST
  | SEC_E_KDC_UNABLE_TO_REFER
  | SEC_E_KDC_UNKNOWN_ETYPE
  | SEC_E_LOGON_DENIED
  | SEC_E_MAX_REFERRALS_EXCEEDED
  | SEC_E_MESSAGE_ALTERED
  | SEC_E_MULTIPLE_ACCOUNTS
  | SEC_E_MUST_BE_KDC
  | SEC_E_NOT_OWNER
  | SEC_E_NO_AUTHENTICATING_AUTHORITY
  | SEC_E_NO_CREDENTIALS
  | SEC_E_NO_IMPERSONATION
  | SEC_E_NO_IP_ADDRESSES
  | SEC_E_NO_KERB_KEY
  | SEC_E_NO_PA_DATA
  | SEC_E_NO_S4U_PROT_SUPPORT
  | SEC_E_NO_TGT_REPLY
  | SEC_E_OUT_OF_SEQUENCE
  | SEC_E_PKINIT_CLIENT_FAILURE
  | SEC_E_PKINIT_NAME_MISMATCH
  | SEC_E_POLICY_NLTM_ONLY
  | SEC_E_QOP_NOT_SUPPORTED
  | SEC_E_REVOCATION_OFFLINE_C
  | SEC_E_REVOCATION_OFFLINE_KDC
  | SEC_E_SECPKG_NOT_FOUND
  | SEC_E_SECURITY_QOS_FAILED
  | SEC_E_SHUTDOWN_IN_PROGRESS
  | SEC_E_SMARTCARD_CERT_EXPIRED
  | SEC_E_SMARTCARD_CERT_REVOKED
  | SEC_E_SMARTCARD_LOGON_REQUIRED
  | SEC_E_STRONG_CRYPTO_NOT_SUPPORTED
  | SEC_E_TARGET_UNKNOWN
  | SEC_E_TIME_SKEW
  | SEC_E_TOO_MANY_PRINCIPALS
  | SEC_E_UNFINISHED_CONTEXT_DELETED
  | SEC_E_UNKNOWN_CREDENTIALS
  | SEC_E_UNSUPPORTED_FUNCTION
  | SEC_E_UNSUPPORTED_PREAUTH
  | SEC_E_UNTRUSTED_ROOT
  | SEC_E_WRONG_CREDENTIAL_HANDLE
  | SEC_E_WRONG_PRINCIPAL
  | SEC_I_COMPLETE_AND_CONTINUE
  | SEC_I_COMPLETE_NEEDED
  | SEC_I_CONTEXT_EXPIRED
  | SEC_I_CONTINUE_NEEDED
  | SEC_I_INCOMPLETE_CREDENTIALS
  | SEC_I_LOCAL_LOGON
  | SEC_I_NO_LSA_CONTEXT
  | SEC_I_RENEGOTIATE
  | SEC_I_SIGNATURE_NEEDED
  deriving DecidableEq, Repr

/-! ## The switch statement -/

/-- Modelled from the spec: the macro `_()` of a build without `USE_GETTEXT`,
whose definition lies outside this unit; localisation disabled at build time is
the identity on literals. -/
def tr (s : String) : String := s

/-- First `case` label of a `switch (x)` whose value equals `x`, with the body
attached to it; `none` when control reaches `default` (or falls out of a switch
that has no `default`).  `num` gives the value of each label. -/
def switch_arm {α β : Type} (num : α → Int) (x : Int) : List (α × β) → Option β
  | [] => none
  | (k, body) :: rest => if x = num k then some body else switch_arm num x rest

/-- The C rule that no two `case` labels of one `switch` have the same value. -/
def distinct_labels {α β : Type} (num : α → Int) (cases : List (α × β)) : Prop :=
  (cases.map (fun p => num p.1)).Nodup

instance {α β : Type} (num : α → Int) (cases : List (α × β)) :
    Decidable (distinct_labels num cases) := by
  unfold distinct_labels; infer_instance

/-- Outcome of a `switch (x)` whose arms either `return _(s);` (`some s`) or
`break;` (`none`), followed by `return _(unknown);` after the switch. -/
def switch_return {α : Type} (num : α → Int) (x : Int) (cases : List (α × Option String))
    (unknown : String) : String :=
  match switch_arm num x cases with
  | some (some s) => tr s
  | _ => tr unknown

/-! ## Public lookups -/

/-- The `case` labels of the switch in `curl_easy_strerror`, in source order: `some s` is `return _(s);`, `none` is `break;`. -/
def easy_cases : List (CURLcode × Option String) :=
  [
    (CURLcode.CURLE_OK, some "No error"),
    (CURLcode.CURLE_UNSUPPORTED_PROTOCOL, some "Unsupported protocol"),
    (CURLcode.CURLE_FAILED_INIT, some "Failed initialization"),
    (CURLcode.CURLE_URL_MALFORMAT, some "URL using bad/illegal format or missing URL"),
    (CURLcode.CURLE_NOT_BUILT_IN, some "A requested feature, protocol or option was not found built-in in this libcurl due to a build-time decision."),
    (CURLcode.CURLE_COULDNT_RESOLVE_PROXY, some "Could not resolve proxy name"),
    (CURLcode.CURLE_COULDNT_RESOLVE_HOST, some "Could not resolve hostname"),
    (CURLcode.CURLE_COULDNT_CONNECT, some "Could not connect to server"),
    (CURLcode.CURLE_WEIRD_SERVER_REPLY, some "Weird server reply"),
    (CURLcode.CURLE_REMOTE_ACCESS_DENIED, some "Access denied to remote resource"),
    (CURLcode.CURLE_FTP_ACCEPT_FAILED, some "FTP: The server failed to connect to data port"),
    (CURLcode.CURLE_FTP_ACCEPT_TIMEOUT, some "FTP: Accepting server connect has timed out"),
    (CURLcode.CURLE_FTP_PRET_FAILED, some "FTP: The server did not accept the PRET command."),
    (CURLcode.CURLE_FTP_WEIRD_PASS_REPLY, some "FTP: unknown PASS reply"),
    (CURLcode.CURLE_FTP_WEIRD_PASV_REPLY, some "FTP: unknown PASV reply"),
    (CURLcode.CURLE_FTP_WEIRD_227_FORMAT, some "FTP: unknown 227 response format"),
    (CURLcode.CURLE_FTP_CANT_GET_HOST, some "FTP: cannot figure out the host in the PASV response"),
    (CURLcode.CURLE_HTTP2, some "Error in the HTTP2 framing layer"),
    (CURLcode.CURLE_FTP_COULDNT_SET_TYPE, some "FTP: could not set file type"),
    (CURLcode.CURLE_PARTIAL_FILE, some "Transferred a partial file"),
    (CURLcode.CURLE_FTP_COULDNT_RETR_FILE, some "FTP: could not retrieve (RETR failed) the specified file"),
    (CURLcode.CURLE_QUOTE_ERROR, some "Quote command returned error"),
    (CURLcode.CURLE_HTTP_RETURNED_ERROR, some "HTTP response code said error"),
    (CURLcode.CURLE_WRITE_ERROR, some "Failed writing received data to disk/application"),
    (CURLcode.CURLE_UPLOAD_FAILED, some "Upload failed (at start/before it took off)"),
    (CURLcode.CURLE_READ_ERROR, some "Failed to open/read local data from file/application"),
    (CURLcode.CURLE_OUT_OF_MEMORY, some "Out of memory"),
    (CURLcode.CURLE_OPERATION_TIMEDOUT, some "Timeout was reached"),
    (CURLcode.CURLE_FTP_PORT_FAILED, some "FTP: command PORT failed"),
    (CURLcode.CURLE_FTP_COULDNT_USE_REST, some "FTP: command REST failed"),
    (CURLcode.CURLE_RANGE_ERROR, some "Requested range was not delivered by the server"),
    (CURLcode.CURLE_SSL_CONNECT_ERROR, some "SSL connect error"),
    (CURLcode.CURLE_BAD_DOWNLOAD_RESUME, some "Could not resume download"),
    (CURLcode.CURLE_FILE_COULDNT_READ_FILE, some "Could not read a file:// file"),
    (CURLcode.CURLE_LDAP_CANNOT_BIND, some "LDAP: cannot bind"),
    (CURLcode.CURLE_LDAP_SEARCH_FAILED, some "LDAP: search failed"),
    (CURLcode.CURLE_ABORTED_BY_CALLBACK, some "Operation was aborted by an application callback"),
    (CURLcode.CURLE_BAD_FUNCTION_ARGUMENT, some "A libcurl function was given a bad argument"),
    (CURLcode.CURLE_INTERFACE_FAILED, some "Failed binding local connection end"),
    (CURLcode.CURLE_TOO_MANY_REDIRECTS, some "Number of redirects hit maximum amount"),
    (CURLcode.CURLE_UNKNOWN_OPTION, some "An unknown option was passed in to libcurl"),
    (CURLcode.CURLE_SETOPT_OPTION_SYNTAX, some "Malformed option provided in a setopt"),
    (CURLcode.CURLE_GOT_NOTHING, some "Server returned nothing (no headers, no data)"),
    (CURLcode.CURLE_SSL_ENGINE_NOTFOUND, some "SSL crypto engine not found"),
    (CURLcode.CURLE_SSL_ENGINE_SETFAILED, some "Can not set SSL crypto engine as default"),
    (CURLcode.CURLE_SSL_ENGINE_INITFAILED, some "Failed to initialise SSL crypto engine"),
    (CURLcode.CURLE_SEND_ERROR, some "Failed sending data to the peer"),
    (CURLcode.CURLE_RECV_ERROR, some "Failure when receiving data from the peer"),
    (CURLcode.CURLE_SSL_CERTPROBLEM, some "Problem with the local SSL certificate"),
    (CURLcode.CURLE_SSL_CIPHER, some "Could not use specified SSL cipher"),
    (CURLcode.CURLE_PEER_FAILED_VERIFICATION, some "SSL peer certificate or SSH remote key was not OK"),
    (CURLcode.CURLE_SSL_CACERT_BADFILE, some "Problem with the SSL CA cert (path? access rights?)"),
    (CURLcode.CURLE_BAD_CONTENT_ENCODING, some "Unrecognized or bad HTTP Content or Transfer-Encoding"),
    (CURLcode.CURLE_FILESIZE_EXCEEDED, some "Maximum file size exceeded"),
    (CURLcode.CURLE_USE_SSL_FAILED, some "Requested SSL level failed"),
    (CURLcode.CURLE_SSL_SHUTDOWN_FAILED, some "Failed to shut down the SSL connection"),
    (CURLcode.CURLE_SSL_CRL_BADFILE, some "Failed to load CRL file (path? access rights?, format?)"),
    (CURLcode.CURLE_SSL_ISSUER_ERROR, some "Issuer check against peer certificate failed"),
    (CURLcode.CURLE_SEND_FAIL_REWIND, some "Send failed since rewinding of the data stream failed"),
    (CURLcode.CURLE_LOGIN_DENIED, some "Login denied"),
    (CURLcode.CURLE_TFTP_NOTFOUND, some "TFTP: File Not Found"),
    (CURLcode.CURLE_TFTP_PERM, some "TFTP: Access Violation"),
    (CURLcode.CURLE_REMOTE_DISK_FULL, some "Disk full or allocation exceeded"),
    (CURLcode.CURLE_TFTP_ILLEGAL, some "TFTP: Illegal operation"),
    (CURLcode.CURLE_TFTP_UNKNOWNID, some "TFTP: Unknown transfer ID"),
    (CURLcode.CURLE_REMOTE_FILE_EXISTS, some "Remote file already exists"),
    (CURLcode.CURLE_TFTP_NOSUCHUSER, some "TFTP: No such user"),
    (CURLcode.CURLE_REMOTE_FILE_NOT_FOUND, some "Remote file not found"),
    (CURLcode.CURLE_SSH, some "Error in the SSH layer"),
    (CURLcode.CURLE_AGAIN, some "Socket not ready for send/recv"),
    (CURLcode.CURLE_RTSP_CSEQ_ERROR, some "RTSP CSeq mismatch or invalid CSeq"),
    (CURLcode.CURLE_RTSP_SESSION_ERROR, some "RTSP session error"),
    (CURLcode.CURLE_FTP_BAD_FILE_LIST, some "Unable to parse FTP file list"),
    (CURLcode.CURLE_CHUNK_FAILED, some "Chunk callback failed"),
    (CURLcode.CURLE_NO_CONNECTION_AVAILABLE, some "The max connection limit is reached"),
    (CURLcode.CURLE_SSL_PINNEDPUBKEYNOTMATCH, some "SSL public key does not match pinned public key"),
    (CURLcode.CURLE_SSL_INVALIDCERTSTATUS, some "SSL server certificate status verification FAILED"),
    (CURLcode.CURLE_HTTP2_STREAM, some "Stream error in the HTTP/2 framing layer"),
    (CURLcode.CURLE_RECURSIVE_API_CALL, some "API function called from within callback"),
    (CURLcode.CURLE_AUTH_ERROR, some "An authentication function returned an error"),
    (CURLcode.CURLE_HTTP3, some "HTTP/3 error"),
    (CURLcode.CURLE_QUIC_CONNECT_ERROR, some "QUIC connection error"),
    (CURLcode.CURLE_PROXY, some "proxy handshake error"),
    (CURLcode.CURLE_SSL_CLIENTCERT, some "SSL Client Certificate required"),
    (CURLcode.CURLE_UNRECOVERABLE_POLL, some "Unrecoverable error in select/poll"),
    (CURLcode.CURLE_TOO_LARGE, some "A value or data field grew larger than allowed"),
    (CURLcode.CURLE_ECH_REQUIRED, some "ECH attempted but failed")
  ]

/-- Translation of `curl_easy_strerror`. -/
def curl_easy_strerror (b : Build) (num : CURLcode → Int) (error : Int) : String :=
  if b.verbose then
    switch_return num error easy_cases "Unknown error"
  else
    if error = 0 then tr "No error" else tr "Error"

/-- The `case` labels of the switch in `curl_multi_strerror`, in source order. -/
def multi_cases : List (CURLMcode × Option String) :=
  [
    (CURLMcode.CURLM_CALL_MULTI_PERFORM, some "Please call curl_multi_perform() soon"),
    (CURLMcode.CURLM_OK, some "No error"),
    (CURLMcode.CURLM_BAD_HANDLE, some "Invalid multi handle"),
    (CURLMcode.CURLM_BAD_EASY_HANDLE, some "Invalid easy handle"),
    (CURLMcode.CURLM_OUT_OF_MEMORY, some "Out of memory"),
    (CURLMcode.CURLM_INTERNAL_ERROR, some "Internal error"),
    (CURLMcode.CURLM_BAD_SOCKET, some "Invalid socket argument"),
    (CURLMcode.CURLM_UNKNOWN_OPTION, some "Unknown option"),
    (CURLMcode.CURLM_ADDED_ALREADY, some "The easy handle is already added to a multi handle"),
    (CURLMcode.CURLM_RECURSIVE_API_CALL, some "API function called from within callback"),
    (CURLMcode.CURLM_WAKEUP_FAILURE, some "Wakeup is unavailable or failed"),
    (CURLMcode.CURLM_BAD_FUNCTION_ARGUMENT, some "A libcurl function was given a bad argument"),
    (CURLMcode.CURLM_ABORTED_BY_CALLBACK, some "Operation was aborted by an application callback"),
    (CURLMcode.CURLM_UNRECOVERABLE_POLL, some "Unrecoverable error in select/poll"),
    (CURLMcode.CURLM_LAST, none)
  ]

/-- Translation of `curl_multi_strerror`. -/
def curl_multi_strerror (b : Build) (num : CURLMcode → Int) (error : Int) : String :=
  if b.verbose then
    switch_return num error multi_cases "Unknown error"
  else
    if error = num .CURLM_OK then tr "No error" else tr "Error"

/-- The `case` labels of the switch in `curl_share_strerror`, in source order. -/
def share_cases : List (CURLSHcode × Option String) :=
  [
    (CURLSHcode.CURLSHE_OK, some "No error"),
    (CURLSHcode.CURLSHE_BAD_OPTION, some "Unknown share option"),
    (CURLSHcode.CURLSHE_IN_USE, some "Share currently in use"),
    (CURLSHcode.CURLSHE_INVALID, some "Invalid share handle"),
    (CURLSHcode.CURLSHE_NOMEM, some "Out of memory"),
    (CURLSHcode.CURLSHE_NOT_BUILT_IN, some "Feature not enabled in this library"),
    (CURLSHcode.CURLSHE_LAST, none)
  ]

/-- Translation of `curl_share_strerror`. -/
def curl_share_strerror (b : Build) (num : CURLSHcode → Int) (error : Int) : String :=
  if b.verbose then
    switch_return num error share_cases "CURLSHcode unknown"
  else
    if error = num .CURLSHE_OK then tr "No error" else tr "Error"

/-- The `case` labels of the switch in `curl_url_strerror`, in source order. -/
def url_cases : List (CURLUcode × Option String) :=
  [
    (CURLUcode.CURLUE_OK, some "No error"),
    (CURLUcode.CURLUE_BAD_HANDLE, some "An invalid CURLU pointer was passed as argument"),
    (CURLUcode.CURLUE_BAD_PARTPOINTER, some "An invalid 'part' argument was passed as argument"),
    (CURLUcode.CURLUE_MALFORMED_INPUT, some "Malformed input to a URL function"),
    (CURLUcode.CURLUE_BAD_PORT_NUMBER, some "Port number was not a decimal number between 0 and 65535"),
    (CURLUcode.CURLUE_UNSUPPORTED_SCHEME, some "Unsupported URL scheme"),
    (CURLUcode.CURLUE_URLDECODE, some "URL decode error, most likely because of rubbish in the input"),
    (CURLUcode.CURLUE_OUT_OF_MEMORY, some "A memory function failed"),
    (CURLUcode.CURLUE_USER_NOT_ALLOWED, some "Credentials was passed in the URL when prohibited"),
    (CURLUcode.CURLUE_UNKNOWN_PART, some "An unknown part ID was passed to a URL API function"),
    (CURLUcode.CURLUE_NO_SCHEME, some "No scheme part in the URL"),
    (CURLUcode.CURLUE_NO_USER, some "No user part in the URL"),
    (CURLUcode.CURLUE_NO_PASSWORD, some "No password part in the URL"),
    (CURLUcode.CURLUE_NO_OPTIONS, some "No options part in the URL"),
    (CURLUcode.CURLUE_NO_HOST, some "No host part in the URL"),
    (CURLUcode.CURLUE_NO_PORT, some "No port part in the URL"),
    (CURLUcode.CURLUE_NO_QUERY, some "No query part in the URL"),
    (CURLUcode.CURLUE_NO_FRAGMENT, some "No fragment part in the URL"),
    (CURLUcode.CURLUE_NO_ZONEID, some "No zoneid part in the URL"),
    (CURLUcode.CURLUE_BAD_LOGIN, some "Bad login part"),
    (CURLUcode.CURLUE_BAD_IPV6, some "Bad IPv6 address"),
    (CURLUcode.CURLUE_BAD_HOSTNAME, some "Bad hostname"),
    (CURLUcode.CURLUE_BAD_FILE_URL, some "Bad file:// URL"),
    (CURLUcode.CURLUE_BAD_SLASHES, some "Unsupported number of slashes following scheme"),
    (CURLUcode.CURLUE_BAD_SCHEME, some "Bad scheme"),
    (CURLUcode.CURLUE_BAD_PATH, some "Bad path"),
    (CURLUcode.CURLUE_BAD_FRAGMENT, some "Bad fragment"),
    (CURLUcode.CURLUE_BAD_QUERY, some "Bad query"),
    (CURLUcode.CURLUE_BAD_PASSWORD, some "Bad password"),
    (CURLUcode.CURLUE_BAD_USER, some "Bad user"),
    (CURLUcode.CURLUE_LACKS_IDN, some "libcurl lacks IDN support"),
    (CURLUcode.CURLUE_TOO_LARGE, some "A value or data field is larger than allowed"),
    (CURLUcode.CURLUE_LAST, none)
  ]

/-- Translation of `curl_url_strerror`. -/
def curl_url_strerror (b : Build) (num : CURLUcode → Int) (error : Int) : String :=
  if b.verbose then
    switch_return num error url_cases "CURLUcode unknown"
  else
    if error = num .CURLUE_OK then tr "No error" else tr "Error"

/-! ## C strings, pointers, ambient state -/

/-- Contents of a NUL-terminated character array: the characters before the
terminator, one `Char` for each C `char`. -/
abbrev CStr := List Char

/-- The C function `strlen`. -/
def strlen (s : CStr) : Nat := s.length

/-- The C function `strrchr(s, c)` for a character `c` other than NUL: the
offset `p - s` of the last occurrence of `c` in `s`, or `none` for NULL. -/
def strrchr : CStr → Char → Option Nat
  | [], _ => none
  | x :: rest, c =>
    match strrchr rest c with
    | some p => some (p + 1)
    | none => if x = c then some 0 else none

/-- The assignment `*p = NUL` for a pointer `p` at offset `off` into the string:
the string now ends right before that offset. -/
def poke_nul (s : CStr) (off : Nat) : CStr := s.take off

/-- What a translator returns: the caller's buffer pointer `buf`, or `NULL`. -/
inductive Ptr where
  | null
  | buf
  deriving DecidableEq, Repr

/-- Ambient error state of the calling thread: `errno`, and the value that
`GetLastError()` reports on Windows. -/
@[ext]
structure Ambient where
  errno : Int
  last_error : Nat
  deriving DecidableEq, Repr

/-- Modelled from the spec: the Windows API call `GetLastError()`, which reads
the last platform-API error of the ambient state. -/
def GetLastError (a : Ambient) : Nat := a.last_error

/-- Modelled from the spec: the Windows API call `SetLastError(x)`, which writes
the last platform-API error of the ambient state. -/
def SetLastError (x : Nat) (a : Ambient) : Ambient := { a with last_error := x }

/-- Modelled from the spec: the macro `CURL_SETERRNO(x)`, defined outside this
unit, which writes the errno-equivalent of the ambient state. -/
def CURL_SETERRNO (x : Int) (a : Ambient) : Ambient := { a with errno := x }

/-- An argument passed to the printf-style formatter after the format string. -/
inductive Arg where
  | str (s : CStr)
  | int (n : Int)
  deriving DecidableEq, Repr

/-- External collaborators of the translators, none of them defined in this
unit.  Each call that may touch `errno` or the last-error value takes the
ambient state and returns the new one.
* `sys_nerr`, `sys_errlist`: the dense C-runtime message table (Windows).
* `curl_msnprintf buflen fmt args`: the bounded formatter; the result is the
  string it leaves in the destination buffer.
* `curlx_get_winapi_error err buflen`: `some s` when it returns the buffer,
  then holding `s`; `none` when it returns NULL.
* `strerror_r_posix err buf buflen`: the POSIX flavour, returning its `int`
  result and the contents of the buffer afterwards (`buf` is the contents before).
* `strerror_r_glibc err buflen`: the glibc flavour, returning the message it
  points to, or `none` for NULL.
* `strerror err`: plain `strerror`, likewise. -/
structure Platform where
  sys_nerr : Int
  sys_errlist : Int → CStr
  curl_msnprintf : Nat → String → List Arg → Ambient → CStr × Ambient
  curlx_get_winapi_error : Int → Nat → Ambient → Option CStr × Ambient
  strerror_r_posix : Int → CStr → Nat → Ambient → (Int × CStr) × Ambient
  strerror_r_glibc : Int → Nat → Ambient → Option CStr × Ambient
  strerror : Int → Ambient → Option CStr × Ambient

/-- Outcome of a translator call: the pointer returned, the contents of the
caller's buffer afterwards, and the ambient state afterwards. -/
structure Result where
  ret : Ptr
  buf : CStr
  amb : Ambient
  deriving DecidableEq, Repr

/-! ## Winsock helper -/

/-- The `case` labels of the switch in `get_winsock_error` that precede `WSAEDISCON`, in source order, each with the text assigned to `p`. -/
def winsock_cases_head : List (WSAcode × String) :=
  [
    (WSAcode.WSAEINTR, tr "Call interrupted"),
    (WSAcode.WSAEBADF, tr "Bad file"),
    (WSAcode.WSAEACCES, tr "Bad access"),
    (WSAcode.WSAEFAULT, tr "Bad argument"),
    (WSAcode.WSAEINVAL, tr "Invalid arguments"),
    (WSAcode.WSAEMFILE, tr "Out of file descriptors"),
    (WSAcode.WSAEWOULDBLOCK, tr "Call would block"),
    (WSAcode.WSAEINPROGRESS, tr "Blocking call in progress"),
    (WSAcode.WSAEALREADY, tr "Blocking call in progress"),
    (WSAcode.WSAENOTSOCK, tr "Descriptor is not a socket"),
    (WSAcode.WSAEDESTADDRREQ, tr "Need destination address"),
    (WSAcode.WSAEMSGSIZE, tr "Bad message size"),
    (WSAcode.WSAEPROTOTYPE, tr "Bad protocol"),
    (WSAcode.WSAENOPROTOOPT, tr "Protocol option is unsupported"),
    (WSAcode.WSAEPROTONOSUPPORT, tr "Protocol is unsupported"),
    (WSAcode.WSAESOCKTNOSUPPORT, tr "Socket is unsupported"),
    (WSAcode.WSAEOPNOTSUPP, tr "Operation not supported"),
    (WSAcode.WSAEAFNOSUPPORT, tr "Address family not supported"),
    (WSAcode.WSAEPFNOSUPPORT, tr "Protocol family not supported"),
    (WSAcode.WSAEADDRINUSE, tr "Address already in use"),
    (WSAcode.WSAEADDRNOTAVAIL, tr "Address not available"),
    (WSAcode.WSAENETDOWN, tr "Network down"),
    (WSAcode.WSAENETUNREACH, tr "Network unreachable"),
    (WSAcode.WSAENETRESET, tr "Network has been reset"),
    (WSAcode.WSAECONNABORTED, tr "Connection was aborted"),
    (WSAcode.WSAECONNRESET, tr "Connection was reset"),
    (WSAcode.WSAENOBUFS, tr "No buffer space"),
    (WSAcode.WSAEISCONN, tr "Socket is already connected"),
    (WSAcode.WSAENOTCONN, tr "Socket is not connected"),
    (WSAcode.WSAESHUTDOWN, tr "Socket has been shut down"),
    (WSAcode.WSAETOOMANYREFS, tr "Too many references"),
    (WSAcode.WSAETIMEDOUT, tr "Timed out"),
    (WSAcode.WSAECONNREFUSED, tr "Connection refused"),
    (WSAcode.WSAELOOP, tr "Loop??"),
    (WSAcode.WSAENAMETOOLONG, tr "Name too long"),
    (WSAcode.WSAEHOSTDOWN, tr "Host down"),
    (WSAcode.WSAEHOSTUNREACH, tr "Host unreachable"),
    (WSAcode.WSAENOTEMPTY, tr "Not empty"),
    (WSAcode.WSAEPROCLIM, tr "Process limit reached"),
    (WSAcode.WSAEUSERS, tr "Too many users"),
    (WSAcode.WSAEDQUOT, tr "Bad quota"),
    (WSAcode.WSAESTALE, tr "Something is stale"),
    (WSAcode.WSAEREMOTE, tr "Remote error")
  ]

/-- The `case WSAEDISCON`, compiled only when the system header defines that constant. -/
def winsock_cases_discon : List (WSAcode × String) :=
  [
    (WSAcode.WSAEDISCON, tr "Disconnected")
  ]

/-- The `case` labels of the switch in `get_winsock_error` that follow `WSAEDISCON`. -/
def winsock_cases_tail : List (WSAcode × String) :=
  [
    (WSAcode.WSASYSNOTREADY, tr "Winsock library is not ready"),
    (WSAcode.WSANOTINITIALISED, tr "Winsock library not initialised"),
    (WSAcode.WSAVERNOTSUPPORTED, tr "Winsock version not supported"),
    (WSAcode.WSAHOST_NOT_FOUND, tr "Host not found"),
    (WSAcode.WSATRY_AGAIN, tr "Host not found, try again"),
    (WSAcode.WSANO_RECOVERY, tr "Unrecoverable error in call to nameserver"),
    (WSAcode.WSANO_DATA, tr "No data record of requested type")
  ]

/-- All `case` labels of the switch in `get_winsock_error` for a given build. -/
def winsock_cases (b : Build) : List (WSAcode × String) :=
  winsock_cases_head ++ (if b.wsaediscon then winsock_cases_discon else []) ++ winsock_cases_tail

/-- Translation of `get_winsock_error`: the pointer returned and the contents
of `buf` afterwards. -/
def get_winsock_error (b : Build) (num : WSAcode → Int) (err : Int) (buf : CStr) (len : Nat) :
    Ptr × CStr :=
  if len = 0 then (Ptr.null, buf)
  else
    let buf0 : CStr := []
    if b.verbose then
      match switch_arm num err (winsock_cases b) with
      | none => (Ptr.null, buf0)
      | some p =>
        let alen := strlen p.toList
        if alen < len then (Ptr.buf, p.toList) else (Ptr.buf, buf0)
    else (Ptr.null, buf0)

/-! ## System error translator -/

/-- The Windows branch of `Curl_strerror` (lines 794-808): C-runtime table, then
Winsock table, then the Windows API translator, then the fallback. -/
def Curl_strerror_win32 (b : Build) (P : Platform) (wsa : WSAcode → Int) (err : Int)
    (buf : CStr) (buflen : Nat) (a : Ambient) : CStr × Ambient :=
  if ¬ b.under_ce ∧ 0 ≤ err ∧ err < P.sys_nerr then
    P.curl_msnprintf buflen "%s" [Arg.str (P.sys_errlist err)] a
  else
    let ws : Ptr × CStr :=
      if b.winsock then get_winsock_error b wsa err buf buflen else (Ptr.null, buf)
    if ws.1 = Ptr.null then
      match P.curlx_get_winapi_error err buflen a with
      | (some s, a1) => (s, a1)
      | (none, a1) =>
        P.curl_msnprintf buflen (tr "Unknown error %d (%#x)") [Arg.int err, Arg.int err] a1
    else (ws.2, a)

/-- The non-Windows branch of `Curl_strerror` (lines 811-844), one case for each
flavour of `strerror_r`.  The `DEBUGASSERT(err >= 0)` of debug builds is not
part of the release code and is left out. -/
def Curl_strerror_posix (b : Build) (P : Platform) (err : Int)
    (buf : CStr) (buflen : Nat) (a : Ambient) : CStr × Ambient :=
  match b.strerror_kind with
  | StrerrorKind.posix_r =>
    match P.strerror_r_posix err buf buflen a with
    | ((rc, buf1), a1) =>
      if rc ≠ 0 then
        if buf1 = [] then P.curl_msnprintf buflen (tr "Unknown error %d") [Arg.int err] a1
        else (buf1, a1)
      else (buf1, a1)
  | StrerrorKind.glibc_r =>
    match P.strerror_r_glibc err 256 a with
    | (some msg, a1) => P.curl_msnprintf buflen "%s" [Arg.str msg] a1
    | (none, a1) => P.curl_msnprintf buflen (tr "Unknown error %d") [Arg.int err] a1
  | StrerrorKind.plain =>
    match P.strerror err a with
    | (some msg, a1) => P.curl_msnprintf buflen "%s" [Arg.str msg] a1
    | (none, a1) => P.curl_msnprintf buflen (tr "Unknown error %d") [Arg.int err] a1

/-- The line-feed character, written `\n` in C. -/
def LF : Char := Char.ofNat 10

/-- The carriage-return character, written `\r` in C. -/
def CR : Char := Char.ofNat 13

/-- First post-processing step of `Curl_strerror` (lines 849-851):
`p = strrchr(buf, LF); if(p && (p - buf) >= 2) *p = NUL;`. -/
def strip_lf (buf : CStr) : CStr :=
  match strrchr buf LF with
  | some p => if 2 ≤ p then poke_nul buf p else buf
  | none => buf

/-- Second post-processing step of `Curl_strerror` (lines 852-854):
`p = strrchr(buf, CR); if(p && (p - buf) >= 1) *p = NUL;`. -/
def strip_cr (buf : CStr) : CStr :=
  match strrchr buf CR with
  | some p => if 1 ≤ p then poke_nul buf p else buf
  | none => buf

/-- The post-processing of `Curl_strerror` (lines 848-854): both steps in order. -/
def strip_eol (buf : CStr) : CStr := strip_cr (strip_lf buf)

/-- The epilogue shared by `Curl_strerror` and `Curl_sspi_strerror`: put back
`errno`, and on Windows the last-error value, when they differ from the values
saved at entry. -/
def restore_ambient (b : Build) (old_errno : Int) (old_win_err : Nat) (a : Ambient) : Ambient :=
  let a1 := if a.errno ≠ old_errno then CURL_SETERRNO old_errno a else a
  if b.win32 then
    if old_win_err ≠ GetLastError a1 then SetLastError old_win_err a1 else a1
  else a1

/-- Translation of `Curl_strerror`. -/
def Curl_strerror (b : Build) (P : Platform) (wsa : WSAcode → Int) (err : Int)
    (buf : CStr) (buflen : Nat) (a : Ambient) : Result :=
  let old_win_err := GetLastError a
  let old_errno := a.errno
  if buflen = 0 then ⟨Ptr.null, buf, a⟩
  else
    let buf0 : CStr := []
    let r := if b.win32 then Curl_strerror_win32 b P wsa err buf0 buflen a
             else Curl_strerror_posix b P err buf0 buflen a
    let buf1 := strip_eol r.1
    ⟨Ptr.buf, buf1, restore_ambient b old_errno old_win_err r.2⟩

/-! ## Security-provider translator -/

/-- The `case` labels of the switch in `Curl_sspi_strerror`, in source order, each with the text assigned to `txt`: the translated literal for `SEC_E_OK`, and for a `SEC2TXT(sec)` line the name `sec` itself. -/
def sspi_cases : List (SECcode × String) :=
  [
    (SECcode.SEC_E_OK, tr "No error"),
    (SECcode.CRYPT_E_REVOKED, "CRYPT_E_REVOKED"),
    (SECcode.CRYPT_E_NO_REVOCATION_DLL, "CRYPT_E_NO_REVOCATION_DLL"),
    (SECcode.CRYPT_E_NO_REVOCATION_CHECK, "CRYPT_E_NO_REVOCATION_CHECK"),
    (SECcode.CRYPT_E_REVOCATION_OFFLINE, "CRYPT_E_REVOCATION_OFFLINE"),
    (SECcode.CRYPT_E_NOT_IN_REVOCATION_DATABASE, "CRYPT_E_NOT_IN_REVOCATION_DATABASE"),
    (SECcode.SEC_E_ALGORITHM_MISMATCH, "SEC_E_ALGORITHM_MISMATCH"),
    (SECcode.SEC_E_BAD_BINDINGS, "SEC_E_BAD_BINDINGS"),
    (SECcode.SEC_E_BAD_PKGID, "SEC_E_BAD_PKGID"),
    (SECcode.SEC_E_BUFFER_TOO_SMALL, "SEC_E_BUFFER_TOO_SMALL"),
    (SECcode.SEC_E_CANNOT_INSTALL, "SEC_E_CANNOT_INSTALL"),
    (SECcode.SEC_E_CANNOT_PACK, "SEC_E_CANNOT_PACK"),
    (SECcode.SEC_E_CERT_EXPIRED, "SEC_E_CERT_EXPIRED"),
    (SECcode.SEC_E_CERT_UNKNOWN, "SEC_E_CERT_UNKNOWN"),
    (SECcode.SEC_E_CERT_WRONG_USAGE, "SEC_E_CERT_WRONG_USAGE"),
    (SECcode.SEC_E_CONTEXT_EXPIRED, "SEC_E_CONTEXT_EXPIRED"),
    (SECcode.SEC_E_CROSSREALM_DELEGATION_FAILURE, "SEC_E_CROSSREALM_DELEGATION_FAILURE"),
    (SECcode.SEC_E_CRYPTO_SYSTEM_INVALID, "SEC_E_CRYPTO_SYSTEM_INVALID"),
    (SECcode.SEC_E_DECRYPT_FAILURE, "SEC_E_DECRYPT_FAILURE"),
    (SECcode.SEC_E_DELEGATION_POLICY, "SEC_E_DELEGATION_POLICY"),
    (SECcode.SEC_E_DELEGATION_REQUIRED, "SEC_E_DELEGATION_REQUIRED"),
    (SECcode.SEC_E_DOWNGRADE_DETECTED, "SEC_E_DOWNGRADE_DETECTED"),
    (SECcode.SEC_E_ENCRYPT_FAILURE, "SEC_E_ENCRYPT_FAILURE"),
    (SECcode.SEC_E_ILLEGAL_MESSAGE, "SEC_E_ILLEGAL_MESSAGE"),
    (SECcode.SEC_E_INCOMPLETE_CREDENTIALS, "SEC_E_INCOMPLETE_CREDENTIALS"),
    (SECcode.SEC_E_INCOMPLETE_MESSAGE, "SEC_E_INCOMPLETE_MESSAGE"),
    (SECcode.SEC_E_INSUFFICIENT_MEMORY, "SEC_E_INSUFFICIENT_MEMORY"),
    (SECcode.SEC_E_INTERNAL_ERROR, "SEC_E_INTERNAL_ERROR"),
    (SECcode.SEC_E_INVALID_HANDLE, "SEC_E_INVALID_HANDLE"),
    (SECcode.SEC_E_INVALID_PARAMETER, "SEC_E_INVALID_PARAMETER"),
    (SECcode.SEC_E_INVALID_TOKEN, "SEC_E_INVALID_TOKEN"),
    (SECcode.SEC_E_ISSUING_CA_UNTRUSTED, "SEC_E_ISSUING_CA_UNTRUSTED"),
    (SECcode.SEC_E_ISSUING_CA_UNTRUSTED_KDC, "SEC_E_ISSUING_CA_UNTRUSTED_KDC"),
    (SECcode.SEC_E_KDC_CERT_EXPIRED, "SEC_E_KDC_CERT_EXPIRED"),
    (SECcode.SEC_E_KDC_CERT_REVOKED, "SEC_E_KDC_CERT_REVOKED"),
    (SECcode.SEC_E_KDC_INVALID_REQUEST, "SEC_E_KDC_INVALID_REQUEST"),
    (SECcode.SEC_E_KDC_UNABLE_TO_REFER, "SEC_E_KDC_UNABLE_TO_REFER"),
    (SECcode.SEC_E_KDC_UNKNOWN_ETYPE, "SEC_E_KDC_UNKNOWN_ETYPE"),
    (SECcode.SEC_E_LOGON_DENIED, "SEC_E_LOGON_DENIED"),
    (SECcode.SEC_E_MAX_REFERRALS_EXCEEDED, "SEC_E_MAX_REFERRALS_EXCEEDED"),
    (SECcode.SEC_E_MESSAGE_ALTERED, "SEC_E_MESSAGE_ALTERED"),
    (SECcode.SEC_E_MULTIPLE_ACCOUNTS, "SEC_E_MULTIPLE_ACCOUNTS"),
    (SECcode.SEC_E_MUST_BE_KDC, "SEC_E_MUST_BE_KDC"),
    (SECcode.SEC_E_NOT_OWNER, "SEC_E_NOT_OWNER"),
    (SECcode.SEC_E_NO_AUTHENTICATING_AUTHORITY, "SEC_E_NO_AUTHENTICATING_AUTHORITY"),
    (SECcode.SEC_E_NO_CREDENTIALS, "SEC_E_NO_CREDENTIALS"),
    (SECcode.SEC_E_NO_IMPERSONATION, "SEC_E_NO_IMPERSONATION"),
    (SECcode.SEC_E_NO_IP_ADDRESSES, "SEC_E_NO_IP_ADDRESSES"),
    (SECcode.SEC_E_NO_KERB_KEY, "SEC_E_NO_KERB_KEY"),
    (SECcode.SEC_E_NO_PA_DATA, "SEC_E_NO_PA_DATA"),
    (SECcode.SEC_E_NO_S4U_PROT_SUPPORT, "SEC_E_NO_S4U_PROT_SUPPORT"),
    (SECcode.SEC_E_NO_TGT_REPLY, "SEC_E_NO_TGT_REPLY"),
    (SECcode.SEC_E_OUT_OF_SEQUENCE, "SEC_E_OUT_OF_SEQUENCE"),
    (SECcode.SEC_E_PKINIT_CLIENT_FAILURE, "SEC_E_PKINIT_CLIENT_FAILURE"),
    (SECcode.SEC_E_PKINIT_NAME_MISMATCH, "SEC_E_PKINIT_NAME_MISMATCH"),
    (SECcode.SEC_E_POLICY_NLTM_ONLY, "SEC_E_POLICY_NLTM_ONLY"),
    (SECcode.SEC_E_QOP_NOT_SUPPORTED, "SEC_E_QOP_NOT_SUPPORTED"),
    (SECcode.SEC_E_REVOCATION_OFFLINE_C, "SEC_E_REVOCATION_OFFLINE_C"),
    (SECcode.SEC_E_REVOCATION_OFFLINE_KDC, "SEC_E_REVOCATION_OFFLINE_KDC"),
    (SECcode.SEC_E_SECPKG_NOT_FOUND, "SEC_E_SECPKG_NOT_FOUND"),
    (SECcode.SEC_E_SECURITY_QOS_FAILED, "SEC_E_SECURITY_QOS_FAILED"),
    (SECcode.SEC_E_SHUTDOWN_IN_PROGRESS, "SEC_E_SHUTDOWN_IN_PROGRESS"),
    (SECcode.SEC_E_SMARTCARD_CERT_EXPIRED, "SEC_E_SMARTCARD_CERT_EXPIRED"),
    (SECcode.SEC_E_SMARTCARD_CERT_REVOKED, "SEC_E_SMARTCARD_CERT_REVOKED"),
    (SECcode.SEC_E_SMARTCARD_LOGON_REQUIRED, "SEC_E_SMARTCARD_LOGON_REQUIRED"),
    (SECcode.SEC_E_STRONG_CRYPTO_NOT_SUPPORTED, "SEC_E_STRONG_CRYPTO_NOT_SUPPORTED"),
    (SECcode.SEC_E_TARGET_UNKNOWN, "SEC_E_TARGET_UNKNOWN"),
    (SECcode.SEC_E_TIME_SKEW, "SEC_E_TIME_SKEW"),
    (SECcode.SEC_E_TOO_MANY_PRINCIPALS, "SEC_E_TOO_MANY_PRINCIPALS"),
    (SECcode.SEC_E_UNFINISHED_CONTEXT_DELETED, "SEC_E_UNFINISHED_CONTEXT_DELETED"),
    (SECcode.SEC_E_UNKNOWN_CREDENTIALS, "SEC_E_UNKNOWN_CREDENTIALS"),
    (SECcode.SEC_E_UNSUPPORTED_FUNCTION, "SEC_E_UNSUPPORTED_FUNCTION"),
    (SECcode.SEC_E_UNSUPPORTED_PREAUTH, "SEC_E_UNSUPPORTED_PREAUTH"),
    (SECcode.SEC_E_UNTRUSTED_ROOT, "SEC_E_UNTRUSTED_ROOT"),
    (SECcode.SEC_E_WRONG_CREDENTIAL_HANDLE, "SEC_E_WRONG_CREDENTIAL_HANDLE"),
    (SECcode.SEC_E_WRONG_PRINCIPAL, "SEC_E_WRONG_PRINCIPAL"),
    (SECcode.SEC_I_COMPLETE_AND_CONTINUE, "SEC_I_COMPLETE_AND_CONTINUE"),
    (SECcode.SEC_I_COMPLETE_NEEDED, "SEC_I_COMPLETE_NEEDED"),
    (SECcode.SEC_I_CONTEXT_EXPIRED, "SEC_I_CONTEXT_EXPIRED"),
    (SECcode.SEC_I_CONTINUE_NEEDED, "SEC_I_CONTINUE_NEEDED"),
    (SECcode.SEC_I_INCOMPLETE_CREDENTIALS, "SEC_I_INCOMPLETE_CREDENTIALS"),
    (SECcode.SEC_I_LOCAL_LOGON, "SEC_I_LOCAL_LOGON"),
    (SECcode.SEC_I_NO_LSA_CONTEXT, "SEC_I_NO_LSA_CONTEXT"),
    (SECcode.SEC_I_RENEGOTIATE, "SEC_I_RENEGOTIATE"),
    (SECcode.SEC_I_SIGNATURE_NEEDED, "SEC_I_SIGNATURE_NEEDED")
  ]

/-- Translation of `Curl_sspi_strerror`. -/
def Curl_sspi_strerror (b : Build) (P : Platform) (sec : SECcode → Int) (err : Int)
    (buf : CStr) (buflen : Nat) (a : Ambient) : Result :=
  let old_win_err := GetLastError a
  let old_errno := a.errno
  if buflen = 0 then ⟨Ptr.null, buf, a⟩
  else
    let buf0 : CStr := []
    let r : CStr × Ambient :=
      if b.verbose then
        let txt : String :=
          match switch_arm sec err sspi_cases with
          | some t => t
          | none => tr "Unknown error"
        if err = sec SECcode.SEC_E_ILLEGAL_MESSAGE then
          P.curl_msnprintf buflen
            (tr ("SEC_E_ILLEGAL_MESSAGE (0x%08X) - This error usually " ++
                 "occurs when a fatal SSL/TLS alert is received (e.g. " ++
                 "handshake failed). More detail may be available in " ++
                 "the Windows System event log."))
            [Arg.int err] a
        else
          match P.curlx_get_winapi_error err 256 a with
          | (some msgbuf, a1) =>
            P.curl_msnprintf buflen (tr "%s (0x%08X) - %s")
              [Arg.str txt.toList, Arg.int err, Arg.str msgbuf] a1
          | (none, a1) =>
            P.curl_msnprintf buflen (tr "%s (0x%08X)") [Arg.str txt.toList, Arg.int err] a1
      else
        let txt : String := if err = sec SECcode.SEC_E_OK then tr "No error" else tr "Error"
        if buflen > strlen txt.toList then (txt.toList, a) else (buf0, a)
    ⟨Ptr.buf, r.1, restore_ambient b old_errno old_win_err r.2⟩

/-! ## The numbering of the public header, as an instance -/

/-- Numbering of `CURLcode` as in the public header `curl/curl.h`, which this
unit includes and which is not part of it; an instance of the `num` parameter. -/
def curl_h_easy : CURLcode → Int
  | CURLcode.CURLE_OK => 0
  | CURLcode.CURLE_UNSUPPORTED_PROTOCOL => 1
  | CURLcode.CURLE_FAILED_INIT => 2
  | CURLcode.CURLE_URL_MALFORMAT => 3
  | CURLcode.CURLE_NOT_BUILT_IN => 4
  | CURLcode.CURLE_COULDNT_RESOLVE_PROXY => 5
  | CURLcode.CURLE_COULDNT_RESOLVE_HOST => 6
  | CURLcode.CURLE_COULDNT_CONNECT => 7
  | CURLcode.CURLE_WEIRD_SERVER_REPLY => 8
  | CURLcode.CURLE_REMOTE_ACCESS_DENIED => 9
  | CURLcode.CURLE_FTP_ACCEPT_FAILED => 10
  | CURLcode.CURLE_FTP_ACCEPT_TIMEOUT => 12
  | CURLcode.CURLE_FTP_PRET_FAILED => 84
  | CURLcode.CURLE_FTP_WEIRD_PASS_REPLY => 11
  | CURLcode.CURLE_FTP_WEIRD_PASV_REPLY => 13
  | CURLcode.CURLE_FTP_WEIRD_227_FORMAT => 14
  | CURLcode.CURLE_FTP_CANT_GET_HOST => 15
  | CURLcode.CURLE_HTTP2 => 16
  | CURLcode.CURLE_FTP_COULDNT_SET_TYPE => 17
  | CURLcode.CURLE_PARTIAL_FILE => 18
  | CURLcode.CURLE_FTP_COULDNT_RETR_FILE => 19
  | CURLcode.CURLE_QUOTE_ERROR => 21
  | CURLcode.CURLE_HTTP_RETURNED_ERROR => 22
  | CURLcode.CURLE_WRITE_ERROR => 23
  | CURLcode.CURLE_UPLOAD_FAILED => 25
  | CURLcode.CURLE_READ_ERROR => 26
  | CURLcode.CURLE_OUT_OF_MEMORY => 27
  | CURLcode.CURLE_OPERATION_TIMEDOUT => 28
  | CURLcode.CURLE_FTP_PORT_FAILED => 30
  | CURLcode.CURLE_FTP_COULDNT_USE_REST => 31
  | CURLcode.CURLE_RANGE_ERROR => 33
  | CURLcode.CURLE_SSL_CONNECT_ERROR => 35
  | CURLcode.CURLE_BAD_DOWNLOAD_RESUME => 36
  | CURLcode.CURLE_FILE_COULDNT_READ_FILE => 37
  | CURLcode.CURLE_LDAP_CANNOT_BIND => 38
  | CURLcode.CURLE_LDAP_SEARCH_FAILED => 39
  | CURLcode.CURLE_ABORTED_BY_CALLBACK => 42
  | CURLcode.CURLE_BAD_FUNCTION_ARGUMENT => 43
  | CURLcode.CURLE_INTERFACE_FAILED => 45
  | CURLcode.CURLE_TOO_MANY_REDIRECTS => 47
  | CURLcode.CURLE_UNKNOWN_OPTION => 48
  | CURLcode.CURLE_SETOPT_OPTION_SYNTAX => 49
  | CURLcode.CURLE_GOT_NOTHING => 52
  | CURLcode.CURLE_SSL_ENGINE_NOTFOUND => 53
  | CURLcode.CURLE_SSL_ENGINE_SETFAILED => 54
  | CURLcode.CURLE_SSL_ENGINE_INITFAILED => 66
  | CURLcode.CURLE_SEND_ERROR => 55
  | CURLcode.CURLE_RECV_ERROR => 56
  | CURLcode.CURLE_SSL_CERTPROBLEM => 58
  | CURLcode.CURLE_SSL_CIPHER => 59
  | CURLcode.CURLE_PEER_FAILED_VERIFICATION => 60
  | CURLcode.CURLE_SSL_CACERT_BADFILE => 77
  | CURLcode.CURLE_BAD_CONTENT_ENCODING => 61
  | CURLcode.CURLE_FILESIZE_EXCEEDED => 63
  | CURLcode.CURLE_USE_SSL_FAILED => 64
  | CURLcode.CURLE_SSL_SHUTDOWN_FAILED => 80
  | CURLcode.CURLE_SSL_CRL_BADFILE => 82
  | CURLcode.CURLE_SSL_ISSUER_ERROR => 83
  | CURLcode.CURLE_SEND_FAIL_REWIND => 65
  | CURLcode.CURLE_LOGIN_DENIED => 67
  | CURLcode.CURLE_TFTP_NOTFOUND => 68
  | CURLcode.CURLE_TFTP_PERM => 69
  | CURLcode.CURLE_REMOTE_DISK_FULL => 70
  | CURLcode.CURLE_TFTP_ILLEGAL => 71
  | CURLcode.CURLE_TFTP_UNKNOWNID => 72
  | CURLcode.CURLE_REMOTE_FILE_EXISTS => 73
  | CURLcode.CURLE_TFTP_NOSUCHUSER => 74
  | CURLcode.CURLE_REMOTE_FILE_NOT_FOUND => 78
  | CURLcode.CURLE_SSH => 79
  | CURLcode.CURLE_AGAIN => 81
  | CURLcode.CURLE_RTSP_CSEQ_ERROR => 85
  | CURLcode.CURLE_RTSP_SESSION_ERROR => 86
  | CURLcode.CURLE_FTP_BAD_FILE_LIST => 87
  | CURLcode.CURLE_CHUNK_FAILED => 88
  | CURLcode.CURLE_NO_CONNECTION_AVAILABLE => 89
  | CURLcode.CURLE_SSL_PINNEDPUBKEYNOTMATCH => 90
  | CURLcode.CURLE_SSL_INVALIDCERTSTATUS => 91
  | CURLcode.CURLE_HTTP2_STREAM => 92
  | CURLcode.CURLE_RECURSIVE_API_CALL => 93
  | CURLcode.CURLE_AUTH_ERROR => 94
  | CURLcode.CURLE_HTTP3 => 95
  | CURLcode.CURLE_QUIC_CONNECT_ERROR => 96
  | CURLcode.CURLE_PROXY => 97
  | CURLcode.CURLE_SSL_CLIENTCERT => 98
  | CURLcode.CURLE_UNRECOVERABLE_POLL => 99
  | CURLcode.CURLE_TOO_LARGE => 100
  | CURLcode.CURLE_ECH_REQUIRED => 101

/-- Numbering of `CURLMcode` as in the public header `curl/curl.h`, which this
unit includes and which is not part of it; an instance of the `num` parameter. -/
def curl_h_multi : CURLMcode → Int
  | CURLMcode.CURLM_CALL_MULTI_PERFORM => -1
  | CURLMcode.CURLM_OK => 0
  | CURLMcode.CURLM_BAD_HANDLE => 1
  | CURLMcode.CURLM_BAD_EASY_HANDLE => 2
  | CURLMcode.CURLM_OUT_OF_MEMORY => 3
  | CURLMcode.CURLM_INTERNAL_ERROR => 4
  | CURLMcode.CURLM_BAD_SOCKET => 5
  | CURLMcode.CURLM_UNKNOWN_OPTION => 6
  | CURLMcode.CURLM_ADDED_ALREADY => 7
  | CURLMcode.CURLM_RECURSIVE_API_CALL => 8
  | CURLMcode.CURLM_WAKEUP_FAILURE => 9
  | CURLMcode.CURLM_BAD_FUNCTION_ARGUMENT => 10
  | CURLMcode.CURLM_ABORTED_BY_CALLBACK => 11
  | CURLMcode.CURLM_UNRECOVERABLE_POLL => 12
  | CURLMcode.CURLM_LAST => 13

/-- Numbering of `CURLSHcode` as in the public header `curl/curl.h`, which this
unit includes and which is not part of it; an instance of the `num` parameter. -/
def curl_h_share : CURLSHcode → Int
  | CURLSHcode.CURLSHE_OK => 0
  | CURLSHcode.CURLSHE_BAD_OPTION => 1
  | CURLSHcode.CURLSHE_IN_USE => 2
  | CURLSHcode.CURLSHE_INVALID => 3
  | CURLSHcode.CURLSHE_NOMEM => 4
  | CURLSHcode.CURLSHE_NOT_BUILT_IN => 5
  | CURLSHcode.CURLSHE_LAST => 6

/-- Numbering of `CURLUcode` as in the public header `curl/curl.h`, which this
unit includes and which is not part of it; an instance of the `num` parameter. -/
def curl_h_url : CURLUcode → Int
  | CURLUcode.CURLUE_OK => 0
  | CURLUcode.CURLUE_BAD_HANDLE => 1
  | CURLUcode.CURLUE_BAD_PARTPOINTER => 2
  | CURLUcode.CURLUE_MALFORMED_INPUT => 3
  | CURLUcode.CURLUE_BAD_PORT_NUMBER => 4
  | CURLUcode.CURLUE_UNSUPPORTED_SCHEME => 5
  | CURLUcode.CURLUE_URLDECODE => 6
  | CURLUcode.CURLUE_OUT_OF_MEMORY => 7
  | CURLUcode.CURLUE_USER_NOT_ALLOWED => 8
  | CURLUcode.CURLUE_UNKNOWN_PART => 9
  | CURLUcode.CURLUE_NO_SCHEME => 10
  | CURLUcode.CURLUE_NO_USER => 11
  | CURLUcode.CURLUE_NO_PASSWORD => 12
  | CURLUcode.CURLUE_NO_OPTIONS => 13
  | CURLUcode.CURLUE_NO_HOST => 14
  | CURLUcode.CURLUE_NO_PORT => 15
  | CURLUcode.CURLUE_NO_QUERY => 16
  | CURLUcode.CURLUE_NO_FRAGMENT => 17
  | CURLUcode.CURLUE_NO_ZONEID => 18
  | CURLUcode.CURLUE_BAD_LOGIN => 23
  | CURLUcode.CURLUE_BAD_IPV6 => 22
  | CURLUcode.CURLUE_BAD_HOSTNAME => 21
  | CURLUcode.CURLUE_BAD_FILE_URL => 19
  | CURLUcode.CURLUE_BAD_SLASHES => 28
  | CURLUcode.CURLUE_BAD_SCHEME => 27
  | CURLUcode.CURLUE_BAD_PATH => 25
  | CURLUcode.CURLUE_BAD_FRAGMENT => 20
  | CURLUcode.CURLUE_BAD_QUERY => 26
  | CURLUcode.CURLUE_BAD_PASSWORD => 24
  | CURLUcode.CURLUE_BAD_USER => 29
  | CURLUcode.CURLUE_LACKS_IDN => 30
  | CURLUcode.CURLUE_TOO_LARGE => 31
  | CURLUcode.CURLUE_LAST => 32

/-! ## An example platform, for running the translators on concrete inputs -/

/-- Modelled from the spec: the printf conversion `%d`, the decimal digits of
an `int` with a minus sign in front of a negative value. -/
def render_d (n : Int) : CStr :=
  if n < 0 then '-' :: Nat.toDigits 10 n.natAbs else Nat.toDigits 10 n.toNat

/-- Expansion of a format string for the example platform: `%s` and `%d`
consume the next argument, every other character is copied.  (The other
conversions of this unit, `%#x` and `%08X`, occur only in Windows-only formats
and are not expanded here.) -/
def example_expand : List Char → List Arg → CStr
  | '%' :: 's' :: rest, Arg.str s :: args => s ++ example_expand rest args
  | '%' :: 'd' :: rest, Arg.int n :: args => render_d n ++ example_expand rest args
  | c :: rest, args => c :: example_expand rest args
  | [], _ => []

/-- Message table of the example platform.  The message of error 2 carries a
trailing line ending, the message of error 3 a line break in the middle. -/
def example_message (err : Int) : CStr :=
  if err = 1 then "Operation not permitted".toList
  else if err = 2 then "No such file or directory\r\n".toList
  else if err = 3 then "No such process\n(see the system log)".toList
  else []

/-- An example platform.  Its formatter writes at most `buflen - 1` characters;
its message primitives know the errors 1, 2 and 3; the dense table has
`sys_nerr = 4`; the Windows API translator knows nothing.  Every helper
overwrites `errno` (with 22 or 34) and the last-error value (with 87), as a
helper is free to do. -/
def example_platform : Platform where
  sys_nerr := 4
  sys_errlist := example_message
  curl_msnprintf := fun buflen fmt args _ =>
    ((example_expand fmt.toList args).take (buflen - 1), ⟨34, 87⟩)
  curlx_get_winapi_error := fun _ _ _ => (none, ⟨22, 87⟩)
  strerror_r_posix := fun err buf buflen _ =>
    if example_message err = [] then ((22, buf), ⟨22, 87⟩)
    else ((0, (example_message err).take (buflen - 1)), ⟨34, 87⟩)
  strerror_r_glibc := fun err _ _ =>
    (if example_message err = [] then none else some (example_message err), ⟨22, 87⟩)
  strerror := fun err _ =>
    (if example_message err = [] then none else some (example_message err), ⟨22, 87⟩)

/-- Numbering of the Winsock constants used with the example platform: the
position of the constant in the enumeration above `WSABASEERR` (10000).  Only
an instance of the `num` parameter, not the numbering of the system header. -/
def example_wsa (k : WSAcode) : Int := 10000 + k.toCtorIdx

/-- Numbering of the security-provider constants used with the example
platform: the position of the constant in the enumeration.  Only an instance
of the `num` parameter, not the numbering of the system header. -/
def example_sec (k : SECcode) : Int := k.toCtorIdx

/-- A POSIX build with verbose strings and plain `strerror`. -/
def posix_build : Build := ⟨true, false, false, false, false, StrerrorKind.plain⟩

/-- A Windows build with verbose strings and Winsock. -/
def windows_build : Build := ⟨true, true, false, true, true, StrerrorKind.plain⟩

/-! ## The bounded formatter, modelled from the spec -/

/-- Modelled from the spec: the value an `int` has as a 32-bit `unsigned int`,
which is what the hexadecimal conversions of a printf-style formatter print. -/
def to_unsigned (n : Int) : Nat := (n % 4294967296).toNat

/-- Modelled from the spec: the printf conversion `%#x`, lowercase hexadecimal
of the unsigned value, with `0x` in front of a non-zero value. -/
def render_hash_x (n : Int) : CStr :=
  if to_unsigned n = 0 then ['0'] else '0' :: 'x' :: Nat.toDigits 16 (to_unsigned n)

/-- Modelled from the spec: the printf conversion `%08X`, uppercase hexadecimal
of the unsigned value, padded with zeros on the left to eight digits. -/
def render_08X (n : Int) : CStr :=
  let d := (Nat.toDigits 16 (to_unsigned n)).map Char.toUpper
  List.replicate (8 - d.length) '0' ++ d

/-- Modelled from the spec: expansion of a printf-style format string, for the
four conversions this unit uses (`%s`, `%d`, `%#x`, `%08X`); each consumes the
next argument, every other character is copied. -/
def printf_expand : List Char → List Arg → CStr
  | '%' :: 's' :: rest, Arg.str s :: args => s ++ printf_expand rest args
  | '%' :: 'd' :: rest, Arg.int n :: args => render_d n ++ printf_expand rest args
  | '%' :: '#' :: 'x' :: rest, Arg.int n :: args => render_hash_x n ++ printf_expand rest args
  | '%' :: '0' :: '8' :: 'X' :: rest, Arg.int n :: args =>
    render_08X n ++ printf_expand rest args
  | c :: rest, args => c :: printf_expand rest args
  | [], _ => []

/-- Modelled from the spec: the string the bounded formatter `curl_msnprintf`
leaves in a buffer of capacity `buflen`: the expansion, cut so that it and its
terminator fit ("never writes past a given capacity and always terminates its
output"). -/
def msnprintf_text (buflen : Nat) (fmt : String) (args : List Arg) : CStr :=
  (printf_expand fmt.toList args).take (buflen - 1)

/-- The example platform with the formatter of the spec in place of its own. -/
def printf_platform : Platform :=
  { example_platform with
    curl_msnprintf := fun buflen fmt args _ => (msnprintf_text buflen fmt args, ⟨34, 87⟩) }

/-- The platform `printf_platform` with a Windows API translator that knows
the codes 0 and 5. -/
def enriched_platform : Platform :=
  { printf_platform with
    curlx_get_winapi_error := fun err buflen _ =>
      (if err = 0 then some ("The operation completed successfully.".toList.take (buflen - 1))
       else if err = 5 then some ("Access is denied.".toList.take (buflen - 1))
       else none, ⟨22, 87⟩) }

/-- A Windows build without verbose strings. -/
def windows_terse_build : Build := ⟨false, true, false, true, true, StrerrorKind.plain⟩

/-! ## The switch statement: general facts -/

theorem switch_arm_none {α β : Type} (num : α → Int) (x : Int) (cases : List (α × β))
    (h : ∀ p ∈ cases, x ≠ num p.1) : switch_arm num x cases = none := by
  induction cases with
  | nil => rfl
  | cons p rest ih =>
    obtain ⟨k, body⟩ := p
    have hk : x ≠ num k := h (k, body) (List.mem_cons_self _ _)
    have hr : ∀ q ∈ rest, x ≠ num q.1 := fun q hq => h q (List.mem_cons_of_mem _ hq)
    simp [switch_arm, hk, ih hr]

theorem switch_arm_mem {α β : Type} (num : α → Int) (cases : List (α × β)) (k : α) (v : β)
    (hd : distinct_labels num cases) (hm : (k, v) ∈ cases) :
    switch_arm num (num k) cases = some v := by
  induction cases with
  | nil => simp at hm
  | cons p rest ih =>
    obtain ⟨k1, body⟩ := p
    unfold distinct_labels at hd
    simp only [List.map_cons, List.nodup_cons, List.mem_map, not_exists, not_and] at hd
    rcases List.mem_cons.mp hm with heq | hin
    · cases heq
      simp [switch_arm]
    · have hne : num k ≠ num k1 := fun e => hd.1 (k, v) hin e
      simp only [switch_arm, hne, if_false]
      exact ih hd.2 hin

theorem multi_ok_mem : (CURLMcode.CURLM_OK, some "No error") ∈ multi_cases := by decide

theorem easy_ok_first (num : CURLcode → Int) :
    switch_arm num (num CURLcode.CURLE_OK) easy_cases = some (some "No error") := by
  unfold easy_cases
  simp [switch_arm]

theorem multi_ok_second (num : CURLMcode → Int) (hd : distinct_labels num multi_cases) :
    switch_arm num (num CURLMcode.CURLM_OK) multi_cases = some (some "No error") :=
  switch_arm_mem num multi_cases _ _ hd multi_ok_mem

theorem share_ok_first (num : CURLSHcode → Int) :
    switch_arm num (num CURLSHcode.CURLSHE_OK) share_cases = some (some "No error") := by
  unfold share_cases
  simp [switch_arm]

theorem url_ok_first (num : CURLUcode → Int) :
    switch_arm num (num CURLUcode.CURLUE_OK) url_cases = some (some "No error") := by
  unfold url_cases
  simp [switch_arm]

/-! ## The numbering of the public header satisfies the C rule -/

theorem curl_h_multi_distinct : distinct_labels curl_h_multi multi_cases := by decide
/-- C1. In each of the four public domains the success code maps to exactly
"No error", in the verbose build and in the build without verbose strings.
The numbering is any numbering in which `CURLE_OK` is zero (the
non-verbose `curl_easy_strerror` tests `!error`) and the labels of the
`curl_multi_strerror` switch are pairwise distinct (there `CURLM_OK` is the
second label). -/
theorem C1_ok_code_maps_to_no_error (b : Build)
    (nE : CURLcode → Int) (nM : CURLMcode → Int) (nS : CURLSHcode → Int) (nU : CURLUcode → Int)
    (hE : nE CURLcode.CURLE_OK = 0) (hM : distinct_labels nM multi_cases) :
    curl_easy_strerror b nE (nE CURLcode.CURLE_OK) = "No error" ∧
    curl_multi_strerror b nM (nM CURLMcode.CURLM_OK) = "No error" ∧
    curl_share_strerror b nS (nS CURLSHcode.CURLSHE_OK) = "No error" ∧
    curl_url_strerror b nU (nU CURLUcode.CURLUE_OK) = "No error" := by
  cases hv : b.verbose
  · simp [curl_easy_strerror, curl_multi_strerror, curl_share_strerror, curl_url_strerror,
      hv, hE, tr]
  · simp [curl_easy_strerror, curl_multi_strerror, curl_share_strerror, curl_url_strerror,
      hv, tr, switch_return, multi_ok_second nM hM, easy_ok_first, share_ok_first, url_ok_first]

/-- Witness for C1: the numbering of `curl/curl.h`, verbose build. -/
theorem C1_ok_code_maps_to_no_error_witness :
    curl_h_easy CURLcode.CURLE_OK = 0 ∧ distinct_labels curl_h_multi multi_cases ∧
    curl_easy_strerror ⟨true, false, false, false, false, StrerrorKind.plain⟩ curl_h_easy 0
      = "No error" ∧
    curl_multi_strerror ⟨true, false, false, false, false, StrerrorKind.plain⟩ curl_h_multi 0
      = "No error" :=
  have h := C1_ok_code_maps_to_no_error ⟨true, false, false, false, false, StrerrorKind.plain⟩
    curl_h_easy curl_h_multi curl_h_share curl_h_url rfl curl_h_multi_distinct
  ⟨rfl, curl_h_multi_distinct, h.1, h.2.1⟩

/-- C6. Zero capacity means unavailable and no write: `Curl_strerror` and
`Curl_sspi_strerror` called with capacity 0 return NULL and leave the buffer
as it was, for every code and buffer content; and for every capacity the
result is NULL exactly when the capacity is 0, and is the caller's buffer
exactly when the capacity is at least 1. -/
theorem C6_null_iff_zero_capacity (b : Build) (P : Platform)
    (wsa : WSAcode → Int) (sec : SECcode → Int) (err : Int) (buf : CStr) (buflen : Nat)
    (a : Ambient) :
    ((Curl_strerror b P wsa err buf 0 a).ret = Ptr.null ∧
      (Curl_strerror b P wsa err buf 0 a).buf = buf) ∧
    ((Curl_sspi_strerror b P sec err buf 0 a).ret = Ptr.null ∧
      (Curl_sspi_strerror b P sec err buf 0 a).buf = buf) ∧
    ((Curl_strerror b P wsa err buf buflen a).ret = Ptr.null ↔ buflen = 0) ∧
    ((Curl_sspi_strerror b P sec err buf buflen a).ret = Ptr.null ↔ buflen = 0) ∧
    ((Curl_strerror b P wsa err buf buflen a).ret = Ptr.buf ↔ 1 ≤ buflen) ∧
    ((Curl_sspi_strerror b P sec err buf buflen a).ret = Ptr.buf ↔ 1 ≤ buflen) := by
  refine ⟨by simp [Curl_strerror], by simp [Curl_sspi_strerror], ?_, ?_, ?_, ?_⟩
  · by_cases h : buflen = 0 <;> simp [Curl_strerror, h]
  · by_cases h : buflen = 0 <;> simp [Curl_sspi_strerror, h]
  · by_cases h : buflen = 0
    · simp [Curl_strerror, h]
    · simp [Curl_strerror, h]; omega
  · by_cases h : buflen = 0
    · simp [Curl_sspi_strerror, h]
    · simp [Curl_sspi_strerror, h]; omega

/-! ## Ambient error state -/

theorem restore_ambient_errno (b : Build) (old_errno : Int) (old_win_err : Nat) (a : Ambient) :
    (restore_ambient b old_errno old_win_err a).errno = old_errno := by
  unfold restore_ambient CURL_SETERRNO SetLastError GetLastError
  by_cases h1 : a.errno = old_errno <;> cases b.win32 <;> simp [h1] <;> split <;> simp [h1]

theorem restore_ambient_last_error (b : Build) (old_errno : Int) (old_win_err : Nat)
    (a : Ambient) (hw : b.win32 = true) :
    (restore_ambient b old_errno old_win_err a).last_error = old_win_err := by
  unfold restore_ambient CURL_SETERRNO SetLastError GetLastError
  simp only [hw, if_true]
  by_cases h1 : a.errno = old_errno <;> simp [h1] <;> split <;> simp_all

/-- C7. Ambient error state is preserved: whatever the external helpers do
to `errno` and to the last-error value (each helper of `Platform` returns an
arbitrary new ambient state), after `Curl_strerror` and after
`Curl_sspi_strerror` the value of `errno` equals its value at entry, and in a
Windows build so does the last-error value; this holds for every code,
buffer and capacity, capacity 0 included. -/
theorem C7_ambient_state_preserved (b : Build) (P : Platform)
    (wsa : WSAcode → Int) (sec : SECcode → Int) (err : Int) (buf : CStr) (buflen : Nat)
    (a : Ambient) :
    (Curl_strerror b P wsa err buf buflen a).amb.errno = a.errno ∧
    (b.win32 = true → (Curl_strerror b P wsa err buf buflen a).amb.last_error = a.last_error) ∧
    (Curl_sspi_strerror b P sec err buf buflen a).amb.errno = a.errno ∧
    (b.win32 = true →
      (Curl_sspi_strerror b P sec err buf buflen a).amb.last_error = a.last_error) := by
  by_cases h : buflen = 0
  · simp [Curl_strerror, Curl_sspi_strerror, h]
  · simp only [Curl_strerror, Curl_sspi_strerror, h, if_false, GetLastError]
    exact ⟨restore_ambient_errno _ _ _ _, restore_ambient_last_error _ _ _ _,
      restore_ambient_errno _ _ _ _, restore_ambient_last_error _ _ _ _⟩

/-- Witness for C7: on the example platform, whose helpers overwrite `errno`
and the last-error value, a Windows build called with `errno = 7` and last
error 9 comes back with `errno = 7` and last error 9. -/
theorem C7_ambient_state_preserved_witness :
    (example_platform.curl_msnprintf 256 "%s" [Arg.str (example_message 2)] ⟨7, 9⟩).2
      = ⟨34, 87⟩ ∧
    (Curl_strerror windows_build example_platform example_wsa 2 [] 256 ⟨7, 9⟩).amb = ⟨7, 9⟩ ∧
    (Curl_sspi_strerror windows_build example_platform example_sec 2 [] 256 ⟨7, 9⟩).amb
      = ⟨7, 9⟩ :=
  have h := C7_ambient_state_preserved windows_build example_platform example_wsa example_sec
    2 [] 256 ⟨7, 9⟩
  ⟨rfl, Ambient.ext h.1 (h.2.1 rfl), Ambient.ext h.2.2.1 (h.2.2.2 rfl)⟩

/-! ## Post-processing: `strrchr` -/

theorem strrchr_eq_none (s : CStr) (c : Char) (h : c ∉ s) : strrchr s c = none := by
  induction s with
  | nil => rfl
  | cons x rest ih =>
    have hx : x ≠ c := fun e => h (by simp [e])
    have hr : c ∉ rest := fun e => h (List.mem_cons_of_mem _ e)
    simp [strrchr, ih hr, hx]

theorem strrchr_append_cons (s t : CStr) (c : Char) (h : c ∉ t) :
    strrchr (s ++ c :: t) c = some s.length := by
  induction s with
  | nil => simp [strrchr, strrchr_eq_none t c h]
  | cons x rest ih => simp [strrchr, ih]

theorem strrchr_some (s : CStr) (c : Char) (p : Nat) (h : strrchr s c = some p) :
    s[p]? = some c := by
  induction s generalizing p with
  | nil => simp [strrchr] at h
  | cons x rest ih =>
    cases hr : strrchr rest c with
    | some q =>
      simp only [strrchr, hr, Option.some.injEq] at h
      subst h
      simpa using ih q hr
    | none =>
      simp only [strrchr, hr] at h
      by_cases hx : x = c
      · simp only [hx, if_true, Option.some.injEq] at h
        subst h
        simp [hx]
      · simp [hx] at h

theorem strip_lf_changed (msg : CStr) (h : strip_lf msg ≠ msg) :
    ∃ p, 2 ≤ p ∧ msg[p]? = some LF ∧ strip_lf msg = msg.take p := by
  unfold strip_lf at h ⊢
  cases hr : strrchr msg LF with
  | none => simp [hr] at h
  | some p =>
    by_cases hp : 2 ≤ p
    · exact ⟨p, hp, strrchr_some msg LF p hr, by simp [hp, poke_nul]⟩
    · simp [hr, hp] at h

theorem strip_cr_changed (msg : CStr) (h : strip_cr msg ≠ msg) :
    ∃ p, 1 ≤ p ∧ msg[p]? = some CR ∧ strip_cr msg = msg.take p := by
  unfold strip_cr at h ⊢
  cases hr : strrchr msg CR with
  | none => simp [hr] at h
  | some p =>
    by_cases hp : 1 ≤ p
    · exact ⟨p, hp, strrchr_some msg CR p hr, by simp [hp, poke_nul]⟩
    · simp [hr, hp] at h

theorem strip_lf_is_take (msg : CStr) : ∃ q, strip_lf msg = msg.take q := by
  by_cases h : strip_lf msg = msg
  · exact ⟨msg.length, by simp [h]⟩
  · obtain ⟨p, _, _, hp⟩ := strip_lf_changed msg h
    exact ⟨p, hp⟩

/-! ## Post-processing: line endings -/

/-- C8. Trailing line endings are removed: for every text of at least two
characters that contains neither a line feed nor a carriage return, the
post-processing of `Curl_strerror` turns the text followed by CR LF into the
text, and the text followed by LF into the text.  (The absence of line feeds
from the text is not used: the last line feed is the appended one.) -/
theorem C8_trailing_line_ending_removed (text : CStr)
    (hlen : 2 ≤ text.length) (hcr : CR ∉ text) :
    strip_eol (text ++ [CR, LF]) = text ∧ strip_eol (text ++ [LF]) = text := by
  have hne : CR ≠ LF := by decide
  constructor
  · have h1 : strrchr (text ++ [CR, LF]) LF = some (text ++ [CR]).length := by
      have := strrchr_append_cons (text ++ [CR]) [] LF (by simp)
      simpa using this
    have h2 : strrchr (text ++ [CR]) CR = some text.length :=
      strrchr_append_cons text [] CR (by simp)
    have e1 : strip_lf (text ++ [CR, LF]) = text ++ [CR] := by
      unfold strip_lf
      rw [h1]
      have : 2 ≤ (text ++ [CR]).length := by simp; omega
      simp only [this, if_true, poke_nul]
      have : text ++ [CR, LF] = (text ++ [CR]) ++ [LF] := by simp
      rw [this, List.take_left]
    have e2 : strip_cr (text ++ [CR]) = text := by
      unfold strip_cr
      rw [h2]
      have : 1 ≤ text.length := by omega
      simp only [this, if_true, poke_nul, List.take_left]
    simp [strip_eol, e1, e2]
  · have h1 : strrchr (text ++ [LF]) LF = some text.length :=
      strrchr_append_cons text [] LF (by simp)
    have e1 : strip_lf (text ++ [LF]) = text := by
      unfold strip_lf
      rw [h1]
      simp only [hlen, if_true, poke_nul, List.take_left]
    have e2 : strip_cr text = text := by
      unfold strip_cr
      rw [strrchr_eq_none text CR hcr]
    simp [strip_eol, e1, e2]

/-- Witness for C8: the text "No such file or directory". -/
theorem C8_trailing_line_ending_removed_witness :
    2 ≤ "No such file or directory".toList.length ∧
    CR ∉ "No such file or directory".toList ∧
    strip_eol "No such file or directory\r\n".toList = "No such file or directory".toList ∧
    strip_eol "No such file or directory\n".toList = "No such file or directory".toList :=
  have h := C8_trailing_line_ending_removed "No such file or directory".toList
    (by decide) (by decide)
  ⟨by decide, by decide, h.1, h.2⟩

/-- C9 (code at the failing input). The post-processing of `Curl_strerror`
cuts a message at a line feed in its middle: the message
"No such process", line feed, "(see the system log)", which ends in neither a
line feed nor a carriage return, loses 21 characters, both in
the post-processing step alone and through `Curl_strerror` on the example
platform. -/
theorem C9_interior_line_feed_cuts_message :
    strip_eol "No such process\n(see the system log)".toList = "No such process".toList ∧
    "No such process\n(see the system log)".toList.getLast? = some ')' ∧
    "No such process\n(see the system log)".toList.length
      = "No such process".toList.length + 21 ∧
    (Curl_strerror posix_build example_platform example_wsa 3 [] 256 ⟨0, 0⟩).buf
      = "No such process".toList := by
  decide

/-- C10. Truncation guard for short messages: the post-processing of
`Curl_strerror` leaves the one-character messages LF and CR unmodified, and
indeed every one-character message and every two-character message ending in
LF; in general the line-feed step changes a message only by cutting it at a
line feed at offset 2 or more, and the carriage-return step changes its input
only by cutting the message at a carriage return at offset 1 or more. -/
theorem C10_short_message_guard :
    strip_eol [LF] = [LF] ∧ strip_eol [CR] = [CR] ∧
    (∀ c : Char, strip_eol [c] = [c]) ∧
    (∀ c : Char, strip_eol [c, LF] = [c, LF]) ∧
    (∀ msg : CStr, strip_lf msg ≠ msg →
      ∃ p, 2 ≤ p ∧ msg[p]? = some LF ∧ strip_lf msg = msg.take p) ∧
    (∀ msg : CStr, strip_eol msg ≠ strip_lf msg →
      ∃ p, 1 ≤ p ∧ msg[p]? = some CR ∧ strip_eol msg = msg.take p) := by
  have one : ∀ c : Char, strip_eol [c] = [c] := by
    intro c
    have hne : LF ≠ CR := by decide
    have hne2 : CR ≠ LF := by decide
    by_cases h1 : c = LF
    · subst h1
      simp [strip_eol, strip_lf, strip_cr, strrchr, poke_nul, hne]
    · by_cases h2 : c = CR
      · subst h2
        simp [strip_eol, strip_lf, strip_cr, strrchr, poke_nul, hne2]
      · simp [strip_eol, strip_lf, strip_cr, strrchr, poke_nul, h1, h2]
  have two : ∀ c : Char, strip_eol [c, LF] = [c, LF] := by
    intro c
    have hne : LF ≠ CR := by decide
    by_cases h2 : c = CR <;>
      simp [strip_eol, strip_lf, strip_cr, strrchr, poke_nul, h2, hne]
  refine ⟨one LF, one CR, one, two, strip_lf_changed, ?_⟩
  intro msg h
  obtain ⟨p, hp1, hget, htake⟩ := strip_cr_changed (strip_lf msg) h
  obtain ⟨q, hq⟩ := strip_lf_is_take msg
  rw [hq] at hget htake
  have hpq : p < q := by
    by_contra hge
    have : (List.take q msg)[p]? = none := by
      rw [List.getElem?_eq_none_iff]
      simp
      omega
    rw [this] at hget
    cases hget
  refine ⟨p, hp1, ?_, ?_⟩
  · rw [List.getElem?_take] at hget
    simpa [hpq] using hget
  · show strip_cr (strip_lf msg) = _
    rw [hq, htake, List.take_take]
    congr 1
    omega

/-- Witness for C10: both steps do cut at the allowed offsets, here at
offsets 3 and 2 of the message "ab", CR, LF. -/
theorem C10_short_message_guard_witness :
    strip_lf "ab\r\n".toList ≠ "ab\r\n".toList ∧
    strip_eol "ab\r\n".toList ≠ strip_lf "ab\r\n".toList ∧
    (∃ p, 2 ≤ p ∧ "ab\r\n".toList[p]? = some LF ∧
      strip_lf "ab\r\n".toList = "ab\r\n".toList.take p) ∧
    (∃ p, 1 ≤ p ∧ "ab\r\n".toList[p]? = some CR ∧
      strip_eol "ab\r\n".toList = "ab\r\n".toList.take p) :=
  ⟨by decide, by decide,
    C10_short_message_guard.2.2.2.2.1 "ab\r\n".toList (by decide),
    C10_short_message_guard.2.2.2.2.2 "ab\r\n".toList (by decide)⟩

/-! ## Post-processing only shortens -/

theorem strip_cr_is_take (msg : CStr) : ∃ q, strip_cr msg = msg.take q := by
  by_cases h : strip_cr msg = msg
  · exact ⟨msg.length, by simp [h]⟩
  · obtain ⟨p, _, _, hp⟩ := strip_cr_changed msg h
    exact ⟨p, hp⟩

theorem strip_lf_initial (msg : CStr) : strip_lf msg <+: msg := by
  obtain ⟨q, hq⟩ := strip_lf_is_take msg
  rw [hq]
  exact List.take_prefix q msg

theorem strip_cr_initial (msg : CStr) : strip_cr msg <+: msg := by
  obtain ⟨q, hq⟩ := strip_cr_is_take msg
  rw [hq]
  exact List.take_prefix q msg

theorem strip_eol_initial (msg : CStr) : strip_eol msg <+: msg :=
  (strip_cr_initial (strip_lf msg)).trans (strip_lf_initial msg)

theorem strip_eol_length_le (msg : CStr) : (strip_eol msg).length ≤ msg.length :=
  (strip_eol_initial msg).length_le

theorem strip_lf_ne_nil (msg : CStr) (h : msg ≠ []) : strip_lf msg ≠ [] := by
  by_cases hc : strip_lf msg = msg
  · rw [hc]; exact h
  · obtain ⟨p, hp, _, ht⟩ := strip_lf_changed msg hc
    rw [ht]
    intro hnil
    rcases List.take_eq_nil_iff.mp hnil with h0 | h0
    · omega
    · exact h h0

theorem strip_cr_ne_nil (msg : CStr) (h : msg ≠ []) : strip_cr msg ≠ [] := by
  by_cases hc : strip_cr msg = msg
  · rw [hc]; exact h
  · obtain ⟨p, hp, _, ht⟩ := strip_cr_changed msg hc
    rw [ht]
    intro hnil
    rcases List.take_eq_nil_iff.mp hnil with h0 | h0
    · omega
    · exact h h0

theorem strip_eol_of_no_eol (msg : CStr) (hlf : LF ∉ msg) (hcr : CR ∉ msg) :
    strip_eol msg = msg := by
  simp [strip_eol, strip_lf, strip_cr, strrchr_eq_none msg LF hlf, strrchr_eq_none msg CR hcr]

/-- C20. The post-processing of `Curl_strerror` only ever shortens: for every
message the result is a prefix of the message, and the result of a non-empty
message is non-empty. -/
theorem C20_post_processing_only_shortens (msg : CStr) :
    strip_eol msg <+: msg ∧ (msg ≠ [] → strip_eol msg ≠ []) :=
  ⟨strip_eol_initial msg, fun h => strip_cr_ne_nil _ (strip_lf_ne_nil msg h)⟩

/-- Witness for C20: the message "ab", CR, LF is cut to its prefix "ab". -/
theorem C20_post_processing_only_shortens_witness :
    "ab\r\n".toList ≠ [] ∧ strip_eol "ab\r\n".toList = "ab".toList ∧
    strip_eol "ab\r\n".toList <+: "ab\r\n".toList ∧ strip_eol "ab\r\n".toList ≠ [] :=
  have h := C20_post_processing_only_shortens "ab\r\n".toList
  ⟨by decide, by decide, h.1, h.2 (by decide)⟩

/-! ## Winsock helper -/

theorem get_winsock_error_entry (b : Build) (num : WSAcode → Int) (k : WSAcode) (text : String)
    (buf : CStr) (len : Nat) (hv : b.verbose = true)
    (hd : distinct_labels num (winsock_cases b)) (hm : (k, text) ∈ winsock_cases b)
    (hlen : 1 ≤ len) :
    get_winsock_error b num (num k) buf len
      = (Ptr.buf, if strlen text.toList < len then text.toList else []) := by
  have h0 : len ≠ 0 := by omega
  have harm := switch_arm_mem num (winsock_cases b) k text hd hm
  simp only [get_winsock_error, h0, if_false, hv, if_true, harm]
  split <;> rfl

theorem get_winsock_error_no_entry (b : Build) (num : WSAcode → Int) (err : Int)
    (buf : CStr) (len : Nat) (hlen : 1 ≤ len)
    (h : b.verbose = false ∨ ∀ p ∈ winsock_cases b, err ≠ num p.1) :
    get_winsock_error b num err buf len = (Ptr.null, []) := by
  have h0 : len ≠ 0 := by omega
  rcases h with h | h
  · simp [get_winsock_error, h0, h]
  · cases hv : b.verbose
    · simp [get_winsock_error, h0, hv]
    · simp [get_winsock_error, h0, hv, switch_arm_none num err (winsock_cases b) h]

theorem example_wsa_distinct : distinct_labels example_wsa (winsock_cases windows_build) := by
  decide

/-- C11 (as stated, refuted). With the Winsock numbering of the example and a
buffer of capacity 5, the code `WSAEINTR` has the entry "Call interrupted",
which does not fit; `get_winsock_error` nevertheless returns the buffer, not
NULL, holding the empty string, and `Curl_strerror` stops there: its output is
the empty string. -/
theorem C11_unfit_text_is_still_found :
    (WSAcode.WSAEINTR, "Call interrupted") ∈ winsock_cases windows_build ∧
    ¬ strlen "Call interrupted".toList < 5 ∧
    get_winsock_error windows_build example_wsa (example_wsa WSAcode.WSAEINTR) "junk".toList 5
      = (Ptr.buf, []) ∧
    (get_winsock_error windows_build example_wsa (example_wsa WSAcode.WSAEINTR)
      "junk".toList 5).1 ≠ Ptr.null ∧
    (Curl_strerror windows_build printf_platform example_wsa (example_wsa WSAcode.WSAEINTR)
      "junk".toList 5 ⟨0, 0⟩).buf = [] := by
  decide

/-- C11 (amended). For every code with an entry in the Winsock table and every
capacity of at least 1, `get_winsock_error` copies the matched text into the
buffer exactly when `strlen(text) < capacity`, and returns the buffer (a found
result) in either case; when the text does not fit the buffer holds the empty
string. -/
theorem C11_winsock_copies_only_what_fits (b : Build) (num : WSAcode → Int) (k : WSAcode)
    (text : String) (buf : CStr) (len : Nat) (hv : b.verbose = true)
    (hd : distinct_labels num (winsock_cases b)) (hm : (k, text) ∈ winsock_cases b)
    (hlen : 1 ≤ len) :
    (get_winsock_error b num (num k) buf len).1 = Ptr.buf ∧
    (strlen text.toList < len → (get_winsock_error b num (num k) buf len).2 = text.toList) ∧
    (¬ strlen text.toList < len → (get_winsock_error b num (num k) buf len).2 = []) := by
  rw [get_winsock_error_entry b num k text buf len hv hd hm hlen]
  exact ⟨rfl, fun h => by rw [if_pos h], fun h => by rw [if_neg h]⟩

/-- Witness for C11 (amended): `WSAEINTR` with capacities 256 and 5. -/
theorem C11_winsock_copies_only_what_fits_witness :
    get_winsock_error windows_build example_wsa 10000 "junk".toList 256
      = (Ptr.buf, "Call interrupted".toList) ∧
    get_winsock_error windows_build example_wsa 10000 "junk".toList 5 = (Ptr.buf, []) :=
  have h256 := C11_winsock_copies_only_what_fits windows_build example_wsa WSAcode.WSAEINTR
    "Call interrupted" "junk".toList 256 rfl example_wsa_distinct (by decide) (by decide)
  have h5 := C11_winsock_copies_only_what_fits windows_build example_wsa WSAcode.WSAEINTR
    "Call interrupted" "junk".toList 5 rfl example_wsa_distinct (by decide) (by decide)
  ⟨Prod.ext h256.1 (h256.2.1 (by decide)), Prod.ext h5.1 (h5.2.2 (by decide))⟩

/-- C12. Result of the Winsock lookup: `get_winsock_error` returns NULL for
every code that matches no `case` of its switch, and for every call with
capacity 0, which leaves the buffer as it was; for every code that has a
`case` and every capacity greater than the length of its text it returns the
buffer holding exactly that text; in the build without verbose strings it
returns NULL for every code.  Label values are pairwise distinct, as C
requires. -/
theorem C12_winsock_lookup_result (num : WSAcode → Int) (buf : CStr) :
    (∀ (b : Build) (err : Int) (len : Nat), b.verbose = true →
      (∀ p ∈ winsock_cases b, err ≠ num p.1) →
      (get_winsock_error b num err buf len).1 = Ptr.null) ∧
    (∀ (b : Build) (err : Int), get_winsock_error b num err buf 0 = (Ptr.null, buf)) ∧
    (∀ (b : Build) (k : WSAcode) (text : String) (len : Nat), b.verbose = true →
      distinct_labels num (winsock_cases b) → (k, text) ∈ winsock_cases b →
      strlen text.toList < len →
      get_winsock_error b num (num k) buf len = (Ptr.buf, text.toList)) ∧
    (∀ (b : Build) (err : Int) (len : Nat), b.verbose = false →
      (get_winsock_error b num err buf len).1 = Ptr.null) := by
  refine ⟨?_, ?_, ?_, ?_⟩
  · intro b err len hv h
    by_cases h0 : len = 0
    · simp [get_winsock_error, h0]
    · rw [get_winsock_error_no_entry b num err buf len (by omega) (Or.inr h)]
  · intro b err
    simp [get_winsock_error]
  · intro b k text len hv hd hm hlt
    rw [get_winsock_error_entry b num k text buf len hv hd hm (by omega), if_pos hlt]
  · intro b err len hv
    by_cases h0 : len = 0
    · simp [get_winsock_error, h0]
    · rw [get_winsock_error_no_entry b num err buf len (by omega) (Or.inl hv)]

/-- Witness for C12: the numbering of the example; the code 5 has no `case`,
`WSAEBADF` (10001) has the text "Bad file". -/
theorem C12_winsock_lookup_result_witness :
    (∀ p ∈ winsock_cases windows_build, (5 : Int) ≠ example_wsa p.1) ∧
    (get_winsock_error windows_build example_wsa 5 "junk".toList 256).1 = Ptr.null ∧
    get_winsock_error windows_build example_wsa 10001 "junk".toList 0
      = (Ptr.null, "junk".toList) ∧
    get_winsock_error windows_build example_wsa 10001 "junk".toList 9
      = (Ptr.buf, "Bad file".toList) ∧
    (get_winsock_error windows_terse_build example_wsa 10001 "junk".toList 256).1 = Ptr.null :=
  have h := C12_winsock_lookup_result example_wsa "junk".toList
  have hno : ∀ p ∈ winsock_cases windows_build, (5 : Int) ≠ example_wsa p.1 := by decide
  ⟨hno, h.1 windows_build 5 256 rfl hno, h.2.1 windows_build 10001,
    h.2.2.1 windows_build WSAcode.WSAEBADF "Bad file" 9 rfl example_wsa_distinct
      (by decide) (by decide),
    h.2.2.2 windows_terse_build 10001 256 rfl⟩

/-! ## Rendering of numbers -/

theorem printf_percent_s (s : CStr) : printf_expand "%s".toList [Arg.str s] = s := by
  show s ++ [] = s
  rw [List.append_nil]

theorem Curl_strerror_buf_posix (b : Build) (P : Platform) (wsa : WSAcode → Int) (err : Int)
    (buf : CStr) (buflen : Nat) (a : Ambient) (hw : b.win32 = false) (hlen : 1 ≤ buflen) :
    (Curl_strerror b P wsa err buf buflen a).buf
      = strip_eol (Curl_strerror_posix b P err [] buflen a).1 := by
  have h0 : buflen ≠ 0 := by omega
  simp [Curl_strerror, h0, hw]

theorem Curl_strerror_buf_win32 (b : Build) (P : Platform) (wsa : WSAcode → Int) (err : Int)
    (buf : CStr) (buflen : Nat) (a : Ambient) (hw : b.win32 = true) (hlen : 1 ≤ buflen) :
    (Curl_strerror b P wsa err buf buflen a).buf
      = strip_eol (Curl_strerror_win32 b P wsa err [] buflen a).1 := by
  have h0 : buflen ≠ 0 := by omega
  simp [Curl_strerror, h0, hw]

theorem winsock_text_no_eol (b : Build) :
    ∀ p ∈ winsock_cases b, LF ∉ p.2.toList ∧ CR ∉ p.2.toList := by
  cases hd : b.wsaediscon <;> simp only [winsock_cases, hd] <;> decide

theorem win32_dense (b : Build) (P : Platform) (wsa : WSAcode → Int) (err : Int)
    (buf : CStr) (buflen : Nat) (a : Ambient)
    (h : b.under_ce = false ∧ 0 ≤ err ∧ err < P.sys_nerr) :
    Curl_strerror_win32 b P wsa err buf buflen a
      = P.curl_msnprintf buflen "%s" [Arg.str (P.sys_errlist err)] a := by
  simp [Curl_strerror_win32, h.1, h.2.1, h.2.2]

theorem win32_winsock_entry (b : Build) (P : Platform) (wsa : WSAcode → Int) (err : Int)
    (buf : CStr) (buflen : Nat) (a : Ambient)
    (h : ¬ (b.under_ce = false ∧ 0 ≤ err ∧ err < P.sys_nerr))
    (hws : b.winsock = true) (hv : b.verbose = true) (hlen : 1 ≤ buflen)
    (hd : distinct_labels wsa (winsock_cases b))
    (k : WSAcode) (text : String) (hm : (k, text) ∈ winsock_cases b) (he : err = wsa k) :
    Curl_strerror_win32 b P wsa err buf buflen a
      = (if strlen text.toList < buflen then text.toList else [], a) := by
  have h2 : ¬ (¬ b.under_ce = true ∧ 0 ≤ err ∧ err < P.sys_nerr) := by
    simpa using h
  subst he
  simp only [Curl_strerror_win32, h2, if_false, hws, if_true,
    get_winsock_error_entry b wsa k text buf buflen hv hd hm hlen]
  simp

theorem win32_no_winsock_entry (b : Build) (P : Platform) (wsa : WSAcode → Int) (err : Int)
    (buf : CStr) (buflen : Nat) (a : Ambient)
    (h : ¬ (b.under_ce = false ∧ 0 ≤ err ∧ err < P.sys_nerr)) (hlen : 1 ≤ buflen)
    (hno : b.winsock = false ∨ b.verbose = false ∨ ∀ p ∈ winsock_cases b, err ≠ wsa p.1) :
    Curl_strerror_win32 b P wsa err buf buflen a
      = match P.curlx_get_winapi_error err buflen a with
        | (some s, a1) => (s, a1)
        | (none, a1) =>
          P.curl_msnprintf buflen (tr "Unknown error %d (%#x)") [Arg.int err, Arg.int err] a1 := by
  have h2 : ¬ (¬ b.under_ce = true ∧ 0 ≤ err ∧ err < P.sys_nerr) := by
    simpa using h
  rcases hno with hno | hno
  · simp only [Curl_strerror_win32, h2, if_false, hno, Bool.false_eq_true, if_true]
  · cases hws : b.winsock
    · simp only [Curl_strerror_win32, h2, if_false, hws, Bool.false_eq_true, if_true]
    · simp only [Curl_strerror_win32, h2, if_false, hws, if_true,
        get_winsock_error_no_entry b wsa err buf buflen hlen hno]

/-- C14 (as stated, refuted). With the Winsock numbering of the example and a
buffer of capacity 3, the code `WSAEBADF` (10001) lies outside the dense table
and has the Winsock entry "Bad file"; the output of `Curl_strerror` is the
empty string, not that entry under bounded formatting, which is "Ba". -/
theorem C14_unfit_winsock_entry_gives_empty_output :
    ¬ (0 ≤ (10001 : Int) ∧ (10001 : Int) < printf_platform.sys_nerr) ∧
    (WSAcode.WSAEBADF, "Bad file") ∈ winsock_cases windows_build ∧
    example_wsa WSAcode.WSAEBADF = 10001 ∧
    msnprintf_text 3 "%s" [Arg.str "Bad file".toList] = "Ba".toList ∧
    (Curl_strerror windows_build printf_platform example_wsa 10001 [] 3 ⟨0, 0⟩).buf = [] ∧
    (Curl_strerror windows_build printf_platform example_wsa 10001 [] 3 ⟨0, 0⟩).buf
      ≠ strip_eol (msnprintf_text 3 "%s" [Arg.str "Bad file".toList]) := by
  decide

/-- C14 (amended). Windows priority order, first success wins, in
`Curl_strerror` with capacity at least 1 on every Windows build: if the dense
C-runtime table is compiled in (no `UNDER_CE`) and `0 <= code < sys_nerr`, the
output is the dense table entry for the code, formatted and post-processed,
whatever the Winsock table and the Windows API translator hold; otherwise, if
the Winsock table has an entry for the code, the output is that entry when it
fits (`strlen < capacity`) and the empty string when it does not, whatever
the Windows API translator holds; otherwise, if the Windows API translator
yields text, the output is that text, post-processed; otherwise it is the
formatted "Unknown error" fallback, post-processed. -/
theorem C14_windows_priority_order (b : Build) (P : Platform) (wsa : WSAcode → Int)
    (err : Int) (buf : CStr) (buflen : Nat) (a : Ambient)
    (hw : b.win32 = true) (hlen : 1 ≤ buflen) :
    (b.under_ce = false → 0 ≤ err → err < P.sys_nerr →
      (Curl_strerror b P wsa err buf buflen a).buf
        = strip_eol (P.curl_msnprintf buflen "%s" [Arg.str (P.sys_errlist err)] a).1) ∧
    (¬ (b.under_ce = false ∧ 0 ≤ err ∧ err < P.sys_nerr) →
      b.winsock = true → b.verbose = true →
      distinct_labels wsa (winsock_cases b) →
      ∀ k text, (k, text) ∈ winsock_cases b → err = wsa k →
      (Curl_strerror b P wsa err buf buflen a).buf
        = if strlen text.toList < buflen then text.toList else []) ∧
    (¬ (b.under_ce = false ∧ 0 ≤ err ∧ err < P.sys_nerr) →
      (b.winsock = false ∨ b.verbose = false ∨ ∀ p ∈ winsock_cases b, err ≠ wsa p.1) →
      ∀ s, (P.curlx_get_winapi_error err buflen a).1 = some s →
      (Curl_strerror b P wsa err buf buflen a).buf = strip_eol s) ∧
    (¬ (b.under_ce = false ∧ 0 ≤ err ∧ err < P.sys_nerr) →
      (b.winsock = false ∨ b.verbose = false ∨ ∀ p ∈ winsock_cases b, err ≠ wsa p.1) →
      (P.curlx_get_winapi_error err buflen a).1 = none →
      (Curl_strerror b P wsa err buf buflen a).buf
        = strip_eol (P.curl_msnprintf buflen (tr "Unknown error %d (%#x)")
            [Arg.int err, Arg.int err] (P.curlx_get_winapi_error err buflen a).2).1) := by
  rw [Curl_strerror_buf_win32 b P wsa err buf buflen a hw hlen]
  refine ⟨?_, ?_, ?_, ?_⟩
  · intro hce h0 h1
    rw [win32_dense b P wsa err [] buflen a ⟨hce, h0, h1⟩]
  · intro hnd hws hv hd k text hm he
    rw [win32_winsock_entry b P wsa err [] buflen a hnd hws hv hlen hd k text hm he]
    have hne := winsock_text_no_eol b (k, text) hm
    show strip_eol (if strlen text.toList < buflen then text.toList else []) = _
    split
    · exact strip_eol_of_no_eol _ hne.1 hne.2
    · rfl
  · intro hnd hno s hs
    rw [win32_no_winsock_entry b P wsa err [] buflen a hnd hlen hno]
    rcases hr : P.curlx_get_winapi_error err buflen a with ⟨m, a1⟩
    rw [hr] at hs
    simp only at hs
    subst hs
    rfl
  · intro hnd hno hs
    rw [win32_no_winsock_entry b P wsa err [] buflen a hnd hlen hno]
    rcases hr : P.curlx_get_winapi_error err buflen a with ⟨m, a1⟩
    rw [hr] at hs
    simp only at hs
    subst hs
    rfl

/-- Witness for C14 (amended): the four steps on the example platforms, with
capacity 256: code 2 is in the dense table, 10001 is `WSAEBADF`, 5 is known
to the Windows API translator only, 99999 to nothing; and on a build with
`UNDER_CE`, where the dense table is not consulted, code 2 reaches the
fallback and 10001 the Winsock table. -/
theorem C14_windows_priority_order_witness :
    (Curl_strerror windows_build enriched_platform example_wsa 2 [] 256 ⟨0, 0⟩).buf
      = strip_eol (enriched_platform.curl_msnprintf 256 "%s"
          [Arg.str (enriched_platform.sys_errlist 2)] ⟨0, 0⟩).1 ∧
    (Curl_strerror windows_build enriched_platform example_wsa 2 [] 256 ⟨0, 0⟩).buf
      = "No such file or directory".toList ∧
    (Curl_strerror windows_build enriched_platform example_wsa 10001 [] 256 ⟨0, 0⟩).buf
      = "Bad file".toList ∧
    (Curl_strerror windows_build enriched_platform example_wsa 5 [] 256 ⟨0, 0⟩).buf
      = "Access is denied.".toList ∧
    (Curl_strerror windows_build enriched_platform example_wsa 99999 [] 256 ⟨0, 0⟩).buf
      = "Unknown error 99999 (0x1869f)".toList ∧
    (Curl_strerror ⟨true, true, true, true, true, StrerrorKind.plain⟩ enriched_platform
        example_wsa 2 [] 256 ⟨0, 0⟩).buf
      = "Unknown error 2 (0x2)".toList ∧
    (Curl_strerror ⟨true, true, true, true, true, StrerrorKind.plain⟩ enriched_platform
        example_wsa 10001 [] 256 ⟨0, 0⟩).buf
      = "Bad file".toList :=
  have h2 := C14_windows_priority_order windows_build enriched_platform example_wsa 2 []
    256 ⟨0, 0⟩ rfl (by decide)
  have h10001 := C14_windows_priority_order windows_build enriched_platform example_wsa
    10001 [] 256 ⟨0, 0⟩ rfl (by decide)
  have h5 := C14_windows_priority_order windows_build enriched_platform example_wsa 5 []
    256 ⟨0, 0⟩ rfl (by decide)
  have h99999 := C14_windows_priority_order windows_build enriched_platform example_wsa
    99999 [] 256 ⟨0, 0⟩ rfl (by decide)
  have hce2 := C14_windows_priority_order ⟨true, true, true, true, true, StrerrorKind.plain⟩
    enriched_platform example_wsa 2 [] 256 ⟨0, 0⟩ rfl (by decide)
  have hce10001 := C14_windows_priority_order
    ⟨true, true, true, true, true, StrerrorKind.plain⟩
    enriched_platform example_wsa 10001 [] 256 ⟨0, 0⟩ rfl (by decide)
  ⟨h2.1 rfl (by decide) (by decide),
    (h2.1 rfl (by decide) (by decide)).trans (by decide),
    (h10001.2.1 (by decide) rfl rfl example_wsa_distinct WSAcode.WSAEBADF "Bad file"
      (by decide) (by decide)).trans (by decide),
    (h5.2.2.1 (by decide) (Or.inr (Or.inr (by decide))) "Access is denied.".toList
      (by decide)).trans (by decide),
    (h99999.2.2.2 (by decide) (Or.inr (Or.inr (by decide))) (by decide)).trans (by decide),
    (hce2.2.2.2 (by decide) (Or.inr (Or.inr (by decide))) (by decide)).trans (by decide),
    (hce10001.2.1 (by decide) rfl rfl example_wsa_distinct WSAcode.WSAEBADF "Bad file"
      (by decide) (by decide)).trans (by decide)⟩

/-! ## Windows fallback shape -/

theorem get_winsock_error_bounded (b : Build) (num : WSAcode → Int) (err : Int) (buf : CStr)
    (len : Nat) (hlen : 1 ≤ len) :
    (get_winsock_error b num err buf len).2.length ≤ len - 1 := by
  have h0 : len ≠ 0 := by omega
  simp only [get_winsock_error, h0, if_false]
  split
  · split
    · simp
    · split
      · simp only [strlen] at *
        omega
      · simp
  · simp

theorem win32_bounded (b : Build) (P : Platform) (wsa : WSAcode → Int) (err : Int)
    (buflen : Nat) (a : Ambient) (hlen : 1 ≤ buflen)
    (hfmt : ∀ n fmt args a, ((P.curl_msnprintf n fmt args a).1).length ≤ n - 1)
    (hapi : ∀ e n a s, (P.curlx_get_winapi_error e n a).1 = some s → s.length ≤ n - 1) :
    (Curl_strerror_win32 b P wsa err [] buflen a).1.length ≤ buflen - 1 := by
  by_cases hdense : (¬ b.under_ce = true ∧ 0 ≤ err ∧ err < P.sys_nerr)
  · simp only [Curl_strerror_win32, hdense, and_self, if_true]
    exact hfmt _ _ _ _
  · simp only [Curl_strerror_win32, hdense, if_false]
    by_cases hnull : (if b.winsock = true then get_winsock_error b wsa err [] buflen
        else (Ptr.null, [])).1 = Ptr.null
    · simp only [hnull, if_true]
      rcases hr : P.curlx_get_winapi_error err buflen a with ⟨m, a1⟩
      cases m with
      | none => exact hfmt _ _ _ _
      | some s => exact hapi err buflen a s (by rw [hr])
    · simp only [hnull, if_false]
      by_cases hws : b.winsock = true
      · simp only [hws, if_true]
        exact get_winsock_error_bounded b wsa err [] buflen hlen
      · simp [hws]

theorem posix_bounded (b : Build) (P : Platform) (err : Int)
    (buflen : Nat) (a : Ambient)
    (hfmt : ∀ n fmt args a, ((P.curl_msnprintf n fmt args a).1).length ≤ n - 1)
    (hposix : ∀ e n a, ((P.strerror_r_posix e [] n a).1.2).length ≤ n - 1) :
    (Curl_strerror_posix b P err [] buflen a).1.length ≤ buflen - 1 := by
  unfold Curl_strerror_posix
  split
  · have hp := hposix err buflen a
    rcases hr : P.strerror_r_posix err [] buflen a with ⟨⟨rc, buf1⟩, a1⟩
    rw [hr] at hp
    simp only at hp
    simp only
    split
    · split
      · exact hfmt _ _ _ _
      · exact hp
    · exact hp
  · rcases hr : P.strerror_r_glibc err 256 a with ⟨m, a1⟩
    cases m with
    | none => exact hfmt _ _ _ _
    | some s => exact hfmt _ _ _ _
  · rcases hr : P.strerror err a with ⟨m, a1⟩
    cases m with
    | none => exact hfmt _ _ _ _
    | some s => exact hfmt _ _ _ _

theorem sspi_bounded (b : Build) (P : Platform) (sec : SECcode → Int) (err : Int)
    (buf : CStr) (buflen : Nat) (a : Ambient) (hlen : 1 ≤ buflen)
    (hfmt : ∀ n fmt args a, ((P.curl_msnprintf n fmt args a).1).length ≤ n - 1) :
    (Curl_sspi_strerror b P sec err buf buflen a).buf.length ≤ buflen - 1 := by
  have h0 : buflen ≠ 0 := by omega
  cases hv : b.verbose
  · simp only [Curl_sspi_strerror, h0, if_false, hv, Bool.false_eq_true]
    by_cases hfit : buflen > strlen
        (if err = sec SECcode.SEC_E_OK then tr "No error" else tr "Error").toList
    · simp only [hfit, if_true]
      simp only [strlen] at hfit
      omega
    · simp only [hfit, if_false]
      simp
  · simp only [Curl_sspi_strerror, h0, if_false, hv, if_true]
    by_cases hill : err = sec SECcode.SEC_E_ILLEGAL_MESSAGE
    · simp only [hill, if_true]
      exact hfmt _ _ _ _
    · simp only [hill, if_false]
      rcases hr : P.curlx_get_winapi_error err 256 a with ⟨m, a1⟩
      cases m with
      | none => exact hfmt _ _ _ _
      | some s => exact hfmt _ _ _ _

/-- C18. Bounded output: when the formatter, the Windows API translator and
the POSIX `strerror_r` never leave more than capacity - 1 characters in the
buffer they are given, then for every code and every capacity of at least 1
the message that `Curl_strerror`, `Curl_sspi_strerror` and
`get_winsock_error` leave in the buffer has at most capacity - 1 characters,
so that its terminator lies within the capacity. -/
theorem C18_bounded_output (b : Build) (P : Platform) (wsa : WSAcode → Int)
    (sec : SECcode → Int) (err : Int) (buf : CStr) (buflen : Nat) (a : Ambient)
    (hlen : 1 ≤ buflen)
    (hfmt : ∀ n fmt args a, ((P.curl_msnprintf n fmt args a).1).length ≤ n - 1)
    (hapi : ∀ e n a s, (P.curlx_get_winapi_error e n a).1 = some s → s.length ≤ n - 1)
    (hposix : ∀ e n a, ((P.strerror_r_posix e [] n a).1.2).length ≤ n - 1) :
    (Curl_strerror b P wsa err buf buflen a).buf.length ≤ buflen - 1 ∧
    (Curl_sspi_strerror b P sec err buf buflen a).buf.length ≤ buflen - 1 ∧
    (get_winsock_error b wsa err buf buflen).2.length ≤ buflen - 1 := by
  refine ⟨?_, sspi_bounded b P sec err buf buflen a hlen hfmt,
    get_winsock_error_bounded b wsa err buf buflen hlen⟩
  cases hw : b.win32
  · rw [Curl_strerror_buf_posix b P wsa err buf buflen a hw hlen]
    exact (strip_eol_length_le _).trans (posix_bounded b P err buflen a hfmt hposix)
  · rw [Curl_strerror_buf_win32 b P wsa err buf buflen a hw hlen]
    exact (strip_eol_length_le _).trans (win32_bounded b P wsa err buflen a hlen hfmt hapi)

/-- Witness for C18: the example platform with the formatter of the spec,
capacity 9; the dense-table message of error 1 is cut to eight characters. -/
theorem C18_bounded_output_witness :
    (Curl_strerror windows_build enriched_platform example_wsa 1 "junk".toList 9 ⟨0, 0⟩).buf
      = "Operatio".toList ∧
    (Curl_strerror windows_build enriched_platform example_wsa 1 "junk".toList 9
      ⟨0, 0⟩).buf.length ≤ 9 - 1 ∧
    (Curl_sspi_strerror windows_build enriched_platform example_sec 1 "junk".toList 9
      ⟨0, 0⟩).buf.length ≤ 9 - 1 ∧
    (get_winsock_error windows_build example_wsa 1 "junk".toList 9).2.length ≤ 9 - 1 :=
  have h := C18_bounded_output windows_build enriched_platform example_wsa example_sec 1
    "junk".toList 9 ⟨0, 0⟩ (by decide)
    (fun n fmt args _ => by
      show (msnprintf_text n fmt args).length ≤ n - 1
      simp [msnprintf_text])
    (fun e n _ s hs => by
      simp only [enriched_platform] at hs
      split at hs
      · cases hs; simp
      · split at hs
        · cases hs; simp
        · cases hs)
    (fun e n _ => by
      simp only [enriched_platform, printf_platform, example_platform]
      split <;> simp)
  ⟨by decide, h.1, h.2.1, h.2.2⟩

/-! ## Success code of the security provider -/

end Strerror
